import Mathlib

/-!
Verification of the model-version lifecycle core of the alloy-dynamic-processors
repository: a shallow embedding of
src/alloy/processors/ai_sorter_v2/models/model_version.py,
src/alloy/processors/ai_sorter_v2/models/model_manager.py and
src/alloy/processors/ai_sorter_v2/models/ab_testing.py, followed by theorems
settling the specification claims about that code.

Conventions of the embedding:
- Python floats are modelled as rationals; Python ints as Nat or Int.
- float('inf') initial values (min_response_time) are modelled with Option,
  none standing for the infinite initial value.
- time.time() and uuid.uuid4() are effects; each manager operation takes the
  current time (now) and the fresh identifier as explicit parameters.
- Python object aliasing is flattened: the manager stores versions in a
  registry keyed by model name, the active-model index stores the active
  VERSION STRING for a model name (the Python dict stores a reference to the
  very object held in the registry), and a version's current_deployment is
  kept in sync with the matching entry (by deployment_id) of its deployments
  list, exactly as mutation through the shared Python reference would do.
- Exceptions that propagate to the caller are modelled with Except; functions
  whose Python body catches all exceptions and returns a value are modelled
  as total functions returning that value.
-/

/-- ModelStatus enum from model_version.py. -/
inductive ModelStatus where
  | pending
  | active
  | testing
  | deprecated
  | retired
  | failed
deriving DecidableEq, BEq

/-- DeploymentStrategy enum from model_version.py. -/
inductive DeploymentStrategy where
  | replace
  | canary
  | blue_green
  | a_b_test
deriving DecidableEq, BEq

/-- ModelMetrics dataclass from model_version.py.  min_response_time is none
while it is still the float('inf') initial value.  p95/p99 and timeout_rate
are carried for structural fidelity; nothing in the embedded code writes
them. -/
structure ModelMetrics where
  total_requests : Nat := 0
  successful_requests : Nat := 0
  failed_requests : Nat := 0
  avg_response_time : ℚ := 0
  min_response_time : Option ℚ := none
  max_response_time : ℚ := 0
  p95_response_time : ℚ := 0
  p99_response_time : ℚ := 0
  avg_confidence_score : ℚ := 0
  classification_accuracy : ℚ := 0
  cost_per_request : ℚ := 0
  total_cost : ℚ := 0
  error_rate : ℚ := 0
  timeout_rate : ℚ := 0
  first_request_time : Option ℚ := none
  last_request_time : Option ℚ := none
  last_updated : ℚ := 0
deriving DecidableEq

/-- ModelMetrics.update_request_metrics is embedded as the composition of
its successive statement blocks (one helper per block of the source method,
applied in source order).  First block: timestamp bookkeeping. -/
def urm_timestamps (now : ℚ) (m : ModelMetrics) : ModelMetrics :=
  { m with
    first_request_time := some (m.first_request_time.getD now),
    last_request_time := some now,
    last_updated := now }

/-- Second block: the request counters.  These run before the response-time
and confidence blocks, so their total_requests == 1 tests see the
incremented value, as in the source. -/
def urm_counters (m : ModelMetrics) (success : Bool) : ModelMetrics :=
  { m with
    total_requests := m.total_requests + 1,
    successful_requests := if success then m.successful_requests + 1 else m.successful_requests,
    failed_requests := if success then m.failed_requests else m.failed_requests + 1 }

/-- Third block: response-time statistics (exponential moving average after
the first sample). -/
def urm_response_time (m : ModelMetrics) (response_time : ℚ) : ModelMetrics :=
  if 0 < response_time then
    if m.total_requests = (1 : Nat) then
      { m with avg_response_time := response_time,
               min_response_time := some response_time,
               max_response_time := response_time }
    else
      let alpha : ℚ := 1/10
      { m with
        avg_response_time := alpha * response_time + (1 - alpha) * m.avg_response_time,
        min_response_time := some (match m.min_response_time with
          | none => response_time
          | some x => min x response_time),
        max_response_time := max m.max_response_time response_time }
  else m

/-- Fourth block: confidence statistics. -/
def urm_confidence (m : ModelMetrics) (confidence : ℚ) : ModelMetrics :=
  if 0 < confidence then
    if m.total_requests = (1 : Nat) then
      { m with avg_confidence_score := confidence }
    else
      let alpha : ℚ := 1/10
      { m with avg_confidence_score := alpha * confidence + (1 - alpha) * m.avg_confidence_score }
  else m

/-- Fifth block: cost accumulation and cost per request. -/
def urm_cost (m : ModelMetrics) (cost : ℚ) : ModelMetrics :=
  let m := { m with total_cost := m.total_cost + cost }
  if (0 : Nat) < m.total_requests then
    { m with cost_per_request := m.total_cost / (m.total_requests : ℚ) }
  else m

/-- Final block: the derived error rate. -/
def urm_error_rate (m : ModelMetrics) : ModelMetrics :=
  { m with error_rate :=
      if (0 : Nat) < m.total_requests then (m.failed_requests : ℚ) / (m.total_requests : ℚ)
      else 0 }

/-- ModelMetrics.update_request_metrics: the blocks above in source order. -/
def update_request_metrics (now : ℚ) (m : ModelMetrics) (response_time : ℚ)
    (success : Bool) (confidence : ℚ) (cost : ℚ) : ModelMetrics :=
  urm_error_rate (urm_cost (urm_confidence
    (urm_response_time (urm_counters (urm_timestamps now m) success) response_time)
    confidence) cost)

/-- ModelConfiguration dataclass from model_version.py.  The untyped
custom_parameters dict is omitted; nothing in the embedded code reads it. -/
structure ModelConfiguration where
  provider : String
  model_name : String
  model_version : String
  temperature : ℚ := 3/10
  max_tokens : Nat := 1000
  timeout : Nat := 30
  cpu_limit : Option String := none
  memory_limit : Option String := none
  gpu_required : Bool := false
  enable_caching : Bool := true
  enable_streaming : Bool := false
  enable_batch_processing : Bool := true
deriving DecidableEq

/-- ModelDeployment dataclass from model_version.py with its field defaults.
deployment_id defaults to a fresh uuid and deployed_at to time.time() in the
source; both are supplied by the call sites of the embedding. -/
structure ModelDeployment where
  deployment_id : String := ""
  model_id : String := ""
  version : String := ""
  status : ModelStatus := .pending
  deployment_strategy : DeploymentStrategy := .replace
  traffic_percentage : ℚ := 100
  target_traffic_percentage : ℚ := 100
  rollout_step_percentage : ℚ := 10
  rollout_interval_minutes : Nat := 30
  deployed_by : String := "system"
  deployed_at : ℚ := 0
  activated_at : Option ℚ := none
  retired_at : Option ℚ := none
  min_success_rate : ℚ := 95/100
  max_response_time : ℚ := 5
  min_confidence_score : ℚ := 8/10
  auto_rollback_enabled : Bool := true
  rollback_threshold_error_rate : ℚ := 1/10
  rollback_threshold_response_time : ℚ := 10
  rollback_evaluation_window_minutes : Nat := 15
  ab_test_duration_hours : Nat := 24
  ab_test_min_requests : Nat := 1000
  ab_test_confidence_level : ℚ := 95/100
deriving DecidableEq

/-- ModelVersion dataclass from model_version.py.  The untyped
validation_results and test_results dicts are omitted; nothing in the
embedded code reads them. -/
structure ModelVersion where
  model_id : String := ""
  version : String := "1.0.0"
  name : String := ""
  description : String := ""
  configuration : ModelConfiguration := { provider := "", model_name := "", model_version := "" }
  status : ModelStatus := .pending
  created_at : ℚ := 0
  created_by : String := "system"
  deployments : List ModelDeployment := []
  current_deployment : Option ModelDeployment := none
  metrics : ModelMetrics := {}
  changelog : List String := []
  tags : List String := []
  parent_version : Option String := none
  child_versions : List String := []
deriving DecidableEq

/-- ModelVersion.add_deployment: stamps the deployment with the owning
version's ids, appends it, and promotes it to current_deployment (activating
the version) exactly when the deployment arrives with ACTIVE status. -/
def add_deployment (v : ModelVersion) (d : ModelDeployment) : ModelVersion :=
  let d := { d with model_id := v.model_id, version := v.version }
  let v := { v with deployments := v.deployments ++ [d] }
  if d.status = .active then { v with current_deployment := some d, status := .active } else v

/-- ModelVersion.calculate_health_score. -/
def calculate_health_score (v : ModelVersion) : ℚ :=
  if v.metrics.total_requests = 0 then 1/2
  else
    let success_rate := (v.metrics.successful_requests : ℚ) / (v.metrics.total_requests : ℚ)
    let success_component := min (4/10) (success_rate * (4/10))
    let response_time_component :=
      if 0 < v.metrics.avg_response_time then
        (max 0 (1 - v.metrics.avg_response_time / 10)) * (3/10)
      else 15/100
    let confidence_component := v.metrics.avg_confidence_score * (2/10)
    let error_penalty := min (1/10) (v.metrics.error_rate * (1/10))
    let health_score := success_component + response_time_component
      + confidence_component - error_penalty
    max 0 (min 1 health_score)

/-- ModelVersion.should_rollback.  The reason strings of the threshold-breach
branches interpolate the numeric values in the source; here they are kept as
the fixed prefixes, which is all the embedded callers and claims inspect. -/
def should_rollback (v : ModelVersion) : Bool × String :=
  match v.current_deployment with
  | none => (false, "Auto-rollback not enabled")
  | some d =>
    if !d.auto_rollback_enabled then (false, "Auto-rollback not enabled")
    else if v.metrics.total_requests < 100 then
      (false, "Insufficient data for rollback evaluation")
    else if d.rollback_threshold_error_rate < v.metrics.error_rate then
      (true, "Error rate exceeds threshold")
    else if d.rollback_threshold_response_time < v.metrics.avg_response_time then
      (true, "Response time exceeds threshold")
    else
      let success_rate := (v.metrics.successful_requests : ℚ) / (v.metrics.total_requests : ℚ)
      if success_rate < d.min_success_rate then (true, "Success rate below minimum")
      else (false, "All metrics within acceptable thresholds")

/-- First-match update: applies f to the first element satisfying p, leaving
the rest alone.  This is how mutation of the object returned by a first-match
lookup acts on the owning Python list. -/
def update_first (p : α → Bool) (f : α → α) : List α → List α
  | [] => []
  | x :: xs => if p x then f x :: xs else x :: update_first p f xs

/-- Dict lookup on an association list (Python dict.get). -/
def lookup_list (l : List (String × α)) (k : String) : Option α :=
  (l.find? (fun q => q.1 == k)).map (fun q => q.2)

/-- Dict assignment on an association list (Python dict[k] = v): overwrite
the existing binding or append a new one. -/
def set_list (l : List (String × α)) (k : String) (v : α) : List (String × α) :=
  if (lookup_list l k).isSome then
    update_first (fun q => q.1 == k) (fun q => (q.1, v)) l
  else l ++ [(k, v)]

/-- Dict deletion on an association list (Python del dict[k]). -/
def erase_list (l : List (String × α)) (k : String) : List (String × α) :=
  l.filter (fun q => !(q.1 == k))

/-- ModelManagerConfig from model_manager.py (the fields the embedded logic
reads; the storage, backup, A/B-default, retention and validation fields only
configure I/O and loops that are outside the embedding). -/
structure ModelManagerConfig where
  default_deployment_strategy : DeploymentStrategy := .replace
  canary_rollout_interval_minutes : Nat := 30
  canary_rollout_step_percentage : ℚ := 10
  min_requests_for_evaluation : Nat := 100
  max_versions_per_model : Nat := 10
  retention_days : Nat := 90
deriving DecidableEq

/-- The A/B test record built by ModelVersionManager._create_ab_test (the
untyped results field, initially None, is omitted). -/
structure AbTestRecord where
  test_id : String
  model_name : String
  control_version : Option String
  treatment_version : String
  start_time : ℚ
  duration_hours : Nat
  min_requests : Nat
  confidence_level : ℚ
  status : String
deriving DecidableEq

/-- The mutable state of a ModelVersionManager: _models maps a model name to
its list of versions; _active_models maps a model name to the version string
of the active version (the Python dict holds a reference to the very
ModelVersion object stored in _models, flattened here to its identity);
_ab_tests maps a test id to its record. -/
structure ManagerState where
  config : ModelManagerConfig := {}
  models : List (String × List ModelVersion) := []
  active_models : List (String × String) := []
  ab_tests : List (String × AbTestRecord) := []
deriving DecidableEq

/-- Mutation of the first version named `version` in the registry list of
`model_name`, as mutating the object returned by get_model_version does. -/
def update_model_version_state (s : ManagerState) (model_name version : String)
    (f : ModelVersion → ModelVersion) : ManagerState :=
  { s with models := (update_first (fun q => q.1 == model_name)
      (fun q => (q.1, update_first (fun mv => mv.version == version) f q.2)) s.models) }

/-- ModelVersionManager.get_model_version: first version with the requested
version string, if any. -/
def get_model_version (s : ManagerState) (model_name version : String) : Option ModelVersion :=
  match lookup_list s.models model_name with
  | none => none
  | some versions => versions.find? (fun mv => mv.version == version)

/-- ModelVersionManager.create_model_version.  The duplicate check precedes
every mutation in the source, so the DuplicateVersionError (a ValueError
there) propagates with the registry untouched; the embedding returns the
error without a state. -/
def create_model_version (now : ℚ) (fresh_model_id : String) (s : ManagerState)
    (model_name version : String) (configuration : ModelConfiguration)
    (description : String) (tags : List String) (parent_version : Option String) :
    Except String (ManagerState × ModelVersion) :=
  let dup := match lookup_list s.models model_name with
    | none => false
    | some versions => versions.any (fun mv => mv.version == version)
  if dup then
    .error ("Version " ++ version ++ " already exists for model " ++ model_name)
  else
    let model_version : ModelVersion :=
      { model_id := fresh_model_id, version := version, name := model_name,
        description := description, configuration := configuration,
        status := .pending, created_at := now, tags := tags,
        parent_version := parent_version, created_by := "model_manager" }
    let s := { s with models := (set_list s.models model_name
        ((lookup_list s.models model_name).getD [] ++ [model_version])) }
    let s := match parent_version with
      | none => s
      | some p =>
        match get_model_version s model_name p with
        | none => s
        | some _ => update_model_version_state s model_name p
            (fun v => { v with child_versions := v.child_versions ++ [version] })
    .ok (s, model_version)

/-- Helper for the aliased mutation pattern
current_deployment.status = RETIRED; current_deployment.retired_at = now:
the Python deployment object is shared with the deployments list, so the
matching list entry (by deployment_id) changes with it. -/
def retire_current_deployment (now : ℚ) (v : ModelVersion) : ModelVersion :=
  match v.current_deployment with
  | none => v
  | some d =>
    let d := { d with status := .retired, retired_at := some now }
    { v with current_deployment := some d,
             deployments := v.deployments.map
               (fun x => if x.deployment_id == d.deployment_id then d else x) }

/-- ModelVersionManager._retire_active_model: all four mutations (deployment
status, retired_at, version status, index deletion) are guarded by the
current model existing AND having a current_deployment. -/
def retire_active_model (now : ℚ) (s : ManagerState) (model_name : String) : ManagerState :=
  match lookup_list s.active_models model_name with
  | none => s
  | some ver =>
    match get_model_version s model_name ver with
    | none => s
    | some mv =>
      match mv.current_deployment with
      | none => s
      | some _ =>
        let s := update_model_version_state s model_name ver
          (fun v => { retire_current_deployment now v with status := .retired })
        { s with active_models := erase_list s.active_models model_name }

/-- The qualification test of ModelVersionManager._find_previous_stable_version:
status ACTIVE or RETIRED, at least one recorded request, stored error rate
strictly below 5%. -/
def is_stable_target (mv : ModelVersion) : Bool :=
  (mv.status == .active || mv.status == .retired) &&
    decide ((0 : Nat) < mv.metrics.total_requests) &&
    decide (mv.metrics.error_rate < 5/100)

/-- The descending-creation-time ordering used by
sorted(..., key=lambda mv: mv.created_at, reverse=True). -/
def created_desc (a b : ModelVersion) : Prop :=
  b.created_at ≤ a.created_at

instance : DecidableRel created_desc :=
  fun a b => inferInstanceAs (Decidable (b.created_at ≤ a.created_at))

instance : IsTotal ModelVersion created_desc :=
  ⟨fun a b => le_total b.created_at a.created_at⟩

instance : IsTrans ModelVersion created_desc :=
  ⟨fun _ _ _ h1 h2 => le_trans h2 h1⟩

/-- The enumerate loop of _find_previous_stable_version that locates the
index of the current version in the sorted list (first match wins). -/
def find_index_of_version (current_version : String) : List ModelVersion → Option Nat
  | [] => none
  | mv :: rest =>
    if mv.version == current_version then some 0
    else (find_index_of_version current_version rest).map (· + 1)

/-- Core of ModelVersionManager._find_previous_stable_version on a version
list: stable sort by creation time (newest first, as Python sorted with
reverse=True), locate the current version, then scan the strictly older
suffix for the first stable target.  insertionSort with this relation is
stable, so it computes the same list as the mergesort of the source. -/
def find_previous_stable_core (l : List ModelVersion) (current_version : String) : Option String :=
  let sorted_versions := List.insertionSort created_desc l
  match find_index_of_version current_version sorted_versions with
  | none => none
  | some i =>
    ((sorted_versions.drop (i + 1)).find? is_stable_target).map (fun mv => mv.version)

/-- ModelVersionManager._find_previous_stable_version. -/
def find_previous_stable_version (s : ManagerState) (model_name current_version : String) :
    Option String :=
  match lookup_list s.models model_name with
  | none => none
  | some versions => find_previous_stable_core versions current_version

/-- ModelVersionManager.rollback_model.  Every raise in the source body is
caught by its blanket except clause, which logs and returns False, so the
embedding returns the unchanged state with false on every failure path and
the mutated state with true on success. -/
def rollback_model (now : ℚ) (fresh_deployment_id : String) (s : ManagerState)
    (model_name : String) (target_version? : Option String) (reason : String) :
    ManagerState × Bool :=
  match lookup_list s.active_models model_name with
  | none => (s, false)
  | some cur_ver =>
    match get_model_version s model_name cur_ver with
    | none => (s, false)
    | some current_model =>
      let target? := match target_version? with
        | some t => some t
        | none => find_previous_stable_version s model_name cur_ver
      match target? with
      | none => (s, false)
      | some target_version =>
        match get_model_version s model_name target_version with
        | none => (s, false)
        | some target_model =>
          let s := update_model_version_state s model_name cur_ver
            (fun v => { retire_current_deployment now v with status := .retired })
          let rollback_deployment : ModelDeployment :=
            { deployment_id := fresh_deployment_id, model_id := target_model.model_id,
              version := target_version, deployment_strategy := .replace,
              traffic_percentage := 100, deployed_by := "rollback_system",
              status := .active, deployed_at := now, activated_at := some now }
          let s := update_model_version_state s model_name target_version
            (fun v =>
              let v := add_deployment v rollback_deployment
              { v with status := .active,
                       changelog := v.changelog ++
                         ["Rollback from " ++ current_model.version ++ ": " ++ reason] })
          let s := { s with active_models := set_list s.active_models model_name target_version }
          let s := update_model_version_state s model_name current_model.version
            (fun v => { v with changelog := v.changelog ++
                ["Rolled back to " ++ target_version ++ ": " ++ reason] })
          (s, true)

/-- ModelVersionManager._create_ab_test. -/
def create_ab_test (now : ℚ) (s : ManagerState) (model_name version : String)
    (deployment : ModelDeployment) : ManagerState :=
  let test_id := model_name ++ "_" ++ version ++ "_" ++ toString (Int.floor now)
  let record : AbTestRecord :=
    { test_id := test_id, model_name := model_name,
      control_version := lookup_list s.active_models model_name,
      treatment_version := version, start_time := now,
      duration_hours := deployment.ab_test_duration_hours,
      min_requests := deployment.ab_test_min_requests,
      confidence_level := deployment.ab_test_confidence_level,
      status := "running" }
  { s with ab_tests := set_list s.ab_tests test_id record }

/-- ModelVersionManager.deploy_model_version.  The ValueError for an unknown
version propagates to the caller (the blanket except re-raises it).  Note
that the BLUE_GREEN strategy has no branch in the source: the deployment is
appended with its default PENDING status and nothing else changes. -/
def deploy_model_version (now : ℚ) (fresh_deployment_id : String) (s : ManagerState)
    (model_name version : String) (strategy? : Option DeploymentStrategy)
    (traffic_percentage : ℚ) (deployed_by : String) :
    Except String (ManagerState × ModelDeployment) :=
  match get_model_version s model_name version with
  | none => .error ("Model version " ++ model_name ++ ":" ++ version ++ " not found")
  | some model_version =>
    let strategy := strategy?.getD s.config.default_deployment_strategy
    let deployment : ModelDeployment :=
      { deployment_id := fresh_deployment_id, model_id := model_version.model_id,
        version := version, deployment_strategy := strategy,
        traffic_percentage := traffic_percentage,
        target_traffic_percentage := traffic_percentage,
        deployed_by := deployed_by, deployed_at := now,
        rollout_step_percentage := s.config.canary_rollout_step_percentage,
        rollout_interval_minutes := s.config.canary_rollout_interval_minutes }
    match strategy with
    | .replace =>
      let s := retire_active_model now s model_name
      let deployment := { deployment with
        status := .active, activated_at := some now, traffic_percentage := 100 }
      let s := { s with active_models := set_list s.active_models model_name version }
      let s := update_model_version_state s model_name version
        (fun v => add_deployment { v with status := .active } deployment)
      .ok (s, deployment)
    | .canary =>
      let deployment := { deployment with
        traffic_percentage := s.config.canary_rollout_step_percentage,
        status := .testing }
      let s := update_model_version_state s model_name version
        (fun v => add_deployment { v with status := .testing } deployment)
      .ok (s, deployment)
    | .a_b_test =>
      let deployment := { deployment with traffic_percentage := 50, status := .testing }
      let s := update_model_version_state s model_name version
        (fun v => { v with status := .testing })
      let s := create_ab_test now s model_name version deployment
      let s := update_model_version_state s model_name version
        (fun v => add_deployment v deployment)
      .ok (s, deployment)
    | .blue_green =>
      let s := update_model_version_state s model_name version
        (fun v => add_deployment v deployment)
      .ok (s, deployment)

/-- ModelVersionManager.update_model_metrics.  An unknown (model, version)
pair silently does nothing (the body is wrapped in a blanket except that
only logs).  The returned flag records whether the auto-rollback branch ran;
the periodic persistence write is I/O outside the embedding. -/
def update_model_metrics (now : ℚ) (fresh_deployment_id : String) (s : ManagerState)
    (model_name version : String) (response_time : ℚ) (success : Bool)
    (confidence : ℚ) (cost : ℚ) : ManagerState × Bool :=
  match get_model_version s model_name version with
  | none => (s, false)
  | some mv =>
    let mv' := { mv with
      metrics := update_request_metrics now mv.metrics response_time success confidence cost }
    let s := update_model_version_state s model_name version (fun v => { v with
      metrics := update_request_metrics now v.metrics response_time success confidence cost })
    let verdict := should_rollback mv'
    if verdict.1 && mv'.status == .active then
      ((rollback_model now fresh_deployment_id s model_name none
          ("Auto-rollback: " ++ verdict.2)).1, true)
    else (s, false)

/-- ModelVersionManager._advance_canary_rollout, as invoked by the rollout
loop _manage_rollouts on a version and its current_deployment.  The index
and rollback operations use the version's name attribute, as the source
does. -/
def advance_canary_rollout (now : ℚ) (fresh_deployment_id : String) (s : ManagerState)
    (model_name version : String) : ManagerState :=
  match get_model_version s model_name version with
  | none => s
  | some mv =>
    match mv.current_deployment with
    | none => s
    | some deployment =>
      if mv.metrics.total_requests < s.config.min_requests_for_evaluation then s
      else
        let verdict := should_rollback mv
        if verdict.1 then
          (rollback_model now fresh_deployment_id s mv.name none
            ("Canary failure: " ++ verdict.2)).1
        else
          let new_percentage := min
            (deployment.traffic_percentage + deployment.rollout_step_percentage)
            deployment.target_traffic_percentage
          let d1 := { deployment with traffic_percentage := new_percentage }
          let s := update_model_version_state s model_name version
            (fun v => { v with
              current_deployment := some d1,
              deployments := (v.deployments.map
                (fun x => if x.deployment_id == d1.deployment_id then d1 else x)) })
          if deployment.target_traffic_percentage ≤ new_percentage then
            let d2 := { d1 with status := .active, activated_at := some now }
            let s := update_model_version_state s model_name version
              (fun v => { v with
                status := .active,
                current_deployment := some d2,
                deployments := (v.deployments.map
                  (fun x => if x.deployment_id == d2.deployment_id then d2 else x)) })
            let s := { s with active_models := set_list s.active_models mv.name version }
            retire_active_model now s mv.name
          else s

/-- ABTestVariant dataclass from ab_testing.py. -/
structure ABTestVariant where
  name : String
  model_name : String
  model_version : String
  traffic_percentage : ℚ := 50
  total_requests : Nat := 0
  successful_requests : Nat := 0
  failed_requests : Nat := 0
  total_response_time : ℚ := 0
  total_confidence_score : ℚ := 0
  total_cost : ℚ := 0
  response_times : List ℚ := []
  confidence_scores : List ℚ := []
deriving DecidableEq

/-- ABTestConfiguration dataclass from ab_testing.py. -/
structure ABTestConfiguration where
  test_id : String
  name : String
  description : String
  control_variant : ABTestVariant
  treatment_variant : ABTestVariant
  confidence_level : ℚ := 95/100
  minimum_detectable_effect : ℚ := 5/100
  power : ℚ := 8/10
  max_duration_hours : Nat := 168
  min_sample_size_per_variant : Int := 1000
  max_sample_size_per_variant : Int := 100000
  primary_metric : String := "success_rate"
  secondary_metrics : List String := ["response_time", "confidence_score"]
  early_stopping_enabled : Bool := true
  futility_threshold : ℚ := 1/100
  harm_threshold : ℚ := 95/100
  ramp_up_enabled : Bool := true
  initial_traffic_percentage : ℚ := 10
  ramp_up_interval_hours : Nat := 24
deriving DecidableEq

/-- ABTestConfiguration.calculate_required_sample_size.  A zero minimum
detectable effect raises ZeroDivisionError in the float division of the
source, caught by the except clause which returns the minimum sample size;
that is the first branch here.  Python int() truncates toward zero, which on
the nonnegative quotient equals the floor. -/
def calculate_required_sample_size (c : ABTestConfiguration) : Int :=
  if c.minimum_detectable_effect = 0 then c.min_sample_size_per_variant
  else
    let z_alpha : ℚ := if c.confidence_level = 95/100 then 196/100 else 258/100
    let z_beta : ℚ := if c.power = 8/10 then 84/100 else 128/100
    let baseline_rate : ℚ := 95/100
    let numerator := (z_alpha + z_beta) ^ 2 * 2 * baseline_rate * (1 - baseline_rate)
    let denominator := c.minimum_detectable_effect ^ 2
    let sample_size : Int := Int.floor (numerator / denominator)
    let sample_size := max c.min_sample_size_per_variant sample_size
    min c.max_sample_size_per_variant sample_size

/-- Python string truthiness in user_id or request_id or str(time.time()):
None and the empty string both fall through to the next alternative. -/
def py_str_or (a : Option String) (b : String) : String :=
  match a with
  | some s => if s = "" then b else s
  | none => b

/-- ABTestEngine.should_route_to_treatment.  The md5-based bucket function
int(hashlib.md5(x.encode()).hexdigest()[:8], 16) is a fixed pure function of
the input string, passed here as the parameter md5_hex8; str(time.time()) is
the now_str parameter, consulted only when both identifiers are falsy. -/
def should_route_to_treatment (md5_hex8 : String → Nat)
    (active_tests : List (String × ABTestConfiguration))
    (test_id : String) (user_id request_id : Option String) (now_str : String) : Bool :=
  match lookup_list active_tests test_id with
  | none => false
  | some test_config =>
    let hash_input := py_str_or user_id (py_str_or request_id now_str)
    let hash_value := md5_hex8 hash_input
    let hash_percentage := hash_value % 100 + 1
    decide ((hash_percentage : ℚ) ≤ test_config.treatment_variant.traffic_percentage)


/-- Modelled from the spec: the BLUE_GREEN strategy as section 4.2 of the
specification describes it, an atomic cutover equivalent to REPLACE with
respect to traffic and activation (the new version becomes ACTIVE at 100%
traffic) except that the previously active version is kept warm, not
retired, until a separate promote/demote call.  The source has no BLUE_GREEN
branch at all; this definition exists only to be compared against the
embedded deploy_model_version. -/
def deploy_blue_green_spec (now : ℚ) (fresh_deployment_id : String) (s : ManagerState)
    (model_name version : String) (traffic_percentage : ℚ) (deployed_by : String) :
    Except String (ManagerState × ModelDeployment) :=
  match get_model_version s model_name version with
  | none => .error ("Model version " ++ model_name ++ ":" ++ version ++ " not found")
  | some model_version =>
    let deployment : ModelDeployment :=
      { deployment_id := fresh_deployment_id, model_id := model_version.model_id,
        version := version, deployment_strategy := .blue_green,
        traffic_percentage := 100, target_traffic_percentage := traffic_percentage,
        deployed_by := deployed_by, deployed_at := now, status := .active,
        activated_at := some now,
        rollout_step_percentage := s.config.canary_rollout_step_percentage,
        rollout_interval_minutes := s.config.canary_rollout_interval_minutes }
    let s := { s with active_models := set_list s.active_models model_name version }
    let s := update_model_version_state s model_name version
      (fun v => add_deployment { v with status := .active } deployment)
    .ok (s, deployment)

/-- A deployment respects the canary traffic bound when, if it is a canary,
its live traffic does not exceed its target. -/
def canary_dep_ok (d : ModelDeployment) : Prop :=
  d.deployment_strategy = .canary → d.traffic_percentage ≤ d.target_traffic_percentage

/-- The current deployment of a version respects the canary traffic bound. -/
def canary_current_ok (mv : ModelVersion) : Prop :=
  match mv.current_deployment with
  | none => True
  | some d => canary_dep_ok d

/-- Every recorded and current deployment of a version respects the canary
traffic bound. -/
def canary_mv_ok (mv : ModelVersion) : Prop :=
  (∀ d ∈ mv.deployments, canary_dep_ok d) ∧ canary_current_ok mv

/-- The canary traffic invariant over the whole registry. -/
def canary_traffic_inv (s : ManagerState) : Prop :=
  ∀ q ∈ s.models, ∀ mv ∈ q.2, canary_mv_ok mv

/-- Registry well-formedness for one model name: distinct version strings and
distinct creation times, as produced by create_model_version, which rejects
duplicate versions and stamps each version with its creation instant. -/
def registry_wf (l : List ModelVersion) : Prop :=
  l.Pairwise (fun a b => a.version ≠ b.version ∧ a.created_at ≠ b.created_at)

instance registry_wf_rel_dec :
    DecidableRel (fun a b : ModelVersion =>
      a.version ≠ b.version ∧ a.created_at ≠ b.created_at) :=
  fun a b => inferInstanceAs
    (Decidable (a.version ≠ b.version ∧ a.created_at ≠ b.created_at))

instance registry_wf_dec (l : List ModelVersion) : Decidable (registry_wf l) :=
  List.instDecidablePairwise l

/-- A registry used as concrete input by several witnesses: one model with a
single pending version. -/
def example_pending_state : ManagerState :=
  { models := [("m", [{
      model_id := "id1", version := "v1", name := "m",
      configuration := { provider := "p", model_name := "m", model_version := "x" },
      created_at := 1 }])] }

/-- A concrete registry with an active first version (with its deployment)
and a second pending candidate version. -/
def example_v1_deployment : ModelDeployment :=
  { deployment_id := "d0", model_id := "id1", version := "v1", status := .active }

def example_v1_version : ModelVersion :=
  { model_id := "id1", version := "v1", name := "m",
    configuration := { provider := "p", model_name := "m", model_version := "x" },
    created_at := 1, status := .active,
    current_deployment := some example_v1_deployment,
    deployments := [example_v1_deployment],
    metrics := { total_requests := 10, successful_requests := 10 } }

def example_v2_version : ModelVersion :=
  { model_id := "id2", version := "v2", name := "m",
    configuration := { provider := "p", model_name := "m", model_version := "x" },
    created_at := 2 }

def example_two_version_state : ManagerState :=
  { models := [("m", [example_v1_version, example_v2_version])],
    active_models := [("m", "v1")] }

/-- A concrete A/B test registry with one test whose treatment variant takes
the default 50% of traffic. -/
def example_ab_tests : List (String × ABTestConfiguration) :=
  [("t", { test_id := "t", name := "n", description := "",
           control_variant := { name := "control", model_name := "m", model_version := "1" },
           treatment_variant := { name := "treatment", model_name := "m", model_version := "2" } })]

/-- A concrete A/B test configuration for the sample-size witnesses. -/
def example_ab_config : ABTestConfiguration :=
  { test_id := "t", name := "n", description := "",
    control_variant := { name := "control", model_name := "m", model_version := "1" },
    treatment_variant := { name := "treatment", model_name := "m", model_version := "2" } }


/-- A concrete registry for the rollback witnesses: an older retired healthy
version v1 and a newer active regressed version v2. -/
def example_rb_dep : ModelDeployment :=
  { deployment_id := "d2", model_id := "id2", version := "v2", status := .active }

def example_rb_v1 : ModelVersion :=
  { model_id := "id1", version := "v1", name := "m",
    configuration := { provider := "p", model_name := "m", model_version := "x" },
    created_at := 1, status := .retired,
    metrics := { total_requests := 10, successful_requests := 10 } }

def example_rb_v2 : ModelVersion :=
  { model_id := "id2", version := "v2", name := "m",
    configuration := { provider := "p", model_name := "m", model_version := "x" },
    created_at := 2, status := .active,
    current_deployment := some example_rb_dep,
    deployments := [example_rb_dep],
    metrics := { total_requests := 150, successful_requests := 30,
                 failed_requests := 120, error_rate := 4/5 } }

def example_rollback_state : ManagerState :=
  { models := [("m", [example_rb_v1, example_rb_v2])],
    active_models := [("m", "v2")] }

/-- Claim C7: for every ModelVersion, calculate_health_score lies in the
closed interval from 0 to 1, and with zero recorded requests it is exactly
1/2. -/
theorem c7_health_score_bounds (v : ModelVersion) :
    (0 ≤ calculate_health_score v ∧ calculate_health_score v ≤ 1) ∧
      (v.metrics.total_requests = 0 → calculate_health_score v = 1/2) := by
  unfold calculate_health_score
  by_cases h : v.metrics.total_requests = 0
  · simp [h]; norm_num
  · simp only [h, if_false, if_neg h]
    exact ⟨⟨le_max_left 0 _, max_le (by norm_num) (min_le_left 1 _)⟩, fun hc => hc.elim⟩

/-- Witness for c7_health_score_bounds at a concrete untested version. -/
theorem c7_health_score_bounds_witness :
    ({} : ModelVersion).metrics.total_requests = 0 ∧
      calculate_health_score {} = 1/2 :=
  ⟨rfl, (c7_health_score_bounds {}).2 rfl⟩

/-- Claim C4, counterexample: a version with fewer than 100 requests but no
current deployment gets verdict false with reason "Auto-rollback not
enabled", not the insufficient-data reason the claim requires regardless of
deployment configuration. -/
theorem c4_counterexample :
    let v : ModelVersion := { metrics := { total_requests := 50, failed_requests := 50, error_rate := 1 } }
    v.metrics.total_requests < 100 ∧
      should_rollback v = (false, "Auto-rollback not enabled") ∧
      (should_rollback v).2 ≠ "Insufficient data for rollback evaluation" := by
  refine ⟨by norm_num, rfl, by decide⟩

/-- Claim C4 as amended: a version with fewer than 100 total requests always
gets a false rollback verdict; the reason reports insufficient data exactly
when a current deployment with auto_rollback_enabled exists, and reports
auto-rollback not enabled otherwise. -/
theorem c4_insufficient_data_amended (v : ModelVersion)
    (h : v.metrics.total_requests < 100) :
    (should_rollback v).1 = false ∧
      (∀ d, v.current_deployment = some d → d.auto_rollback_enabled = true →
        should_rollback v = (false, "Insufficient data for rollback evaluation")) := by
  cases hd : v.current_deployment with
  | none => simp [should_rollback, hd]
  | some d =>
    cases ha : d.auto_rollback_enabled
    · simp [should_rollback, hd, ha]
    · simp [should_rollback, hd, ha, h]

/-- Witness for c4_insufficient_data_amended at a concrete version with an
auto-rollback-enabled deployment and 99 requests. -/
theorem c4_insufficient_data_amended_witness :
    let v : ModelVersion :=
      { current_deployment := some { auto_rollback_enabled := true },
        metrics := { total_requests := 99, failed_requests := 99, error_rate := 1 } }
    v.metrics.total_requests < 100 ∧
      (should_rollback v).1 = false ∧
      should_rollback v = (false, "Insufficient data for rollback evaluation") := by
  refine ⟨by norm_num, (c4_insufficient_data_amended _ (by norm_num)).1,
    (c4_insufficient_data_amended _ (by norm_num)).2 _ rfl rfl⟩

/-- update_first applied where no element matches leaves the list alone. -/
theorem update_first_of_forall_not {p : α → Bool} {f : α → α} {l : List α}
    (h : ∀ x ∈ l, p x = false) : update_first p f l = l := by
  induction l with
  | nil => rfl
  | cons x xs ih =>
    simp only [update_first, h x (List.mem_cons_self x xs), Bool.false_eq_true, if_false]
    rw [ih (fun y hy => h y (List.mem_cons_of_mem x hy))]

/-- Looking up the updated predicate after update_first returns the mapped
first match, provided f preserves satisfaction of p on matched elements. -/
theorem find?_update_first_self {p : α → Bool} {f : α → α} {l : List α}
    (hf : ∀ x, p x = true → p (f x) = true) :
    (update_first p f l).find? p = (l.find? p).map f := by
  induction l with
  | nil => rfl
  | cons x xs ih =>
    by_cases hx : p x = true
    · simp [update_first, hx, List.find?_cons, hf x hx]
    · have hx' : p x = false := by
        cases hpx : p x
        · rfl
        · exact absurd hpx hx
      simp [update_first, hx', List.find?_cons, ih]

/-- update_first under a predicate disjoint from the one being searched does
not change the search result, provided f keeps matched elements disjoint. -/
theorem find?_update_first_other {p q : α → Bool} {f : α → α} {l : List α}
    (hpq : ∀ x, p x = true → q x = false) (hfq : ∀ x, p x = true → q (f x) = false) :
    (update_first p f l).find? q = l.find? q := by
  induction l with
  | nil => rfl
  | cons x xs ih =>
    by_cases hx : p x = true
    · simp [update_first, hx, List.find?_cons, hfq x hx, hpq x hx]
    · have hx' : p x = false := by
        cases hpx : p x
        · rfl
        · exact absurd hpx hx
      by_cases hq : q x = true
      · simp [update_first, hx', List.find?_cons, hq]
      · have hq' : q x = false := by
          cases hqx : q x
          · rfl
          · exact absurd hqx hq
        simp [update_first, hx', List.find?_cons, hq', ih]

/-- Every member of update_first is an original member or the image of a
matched original member. -/
theorem mem_update_first {p : α → Bool} {f : α → α} {l : List α} {y : α}
    (hy : y ∈ update_first p f l) : y ∈ l ∨ ∃ x ∈ l, p x = true ∧ y = f x := by
  induction l with
  | nil => simp [update_first] at hy
  | cons x xs ih =>
    by_cases hx : p x = true
    · simp only [update_first, hx, if_true, List.mem_cons] at hy
      rcases hy with hy | hy
      · exact Or.inr ⟨x, List.mem_cons_self x xs, hx, hy⟩
      · exact Or.inl (List.mem_cons_of_mem x hy)
    · have hx' : p x = false := by
        cases hpx : p x
        · rfl
        · exact absurd hpx hx
      simp only [update_first, hx', Bool.false_eq_true, if_false, List.mem_cons] at hy
      rcases hy with hy | hy
      · exact Or.inl (hy ▸ List.mem_cons_self x xs)
      · rcases ih hy with h | ⟨z, hz, hpz, hyz⟩
        · exact Or.inl (List.mem_cons_of_mem x h)
        · exact Or.inr ⟨z, List.mem_cons_of_mem x hz, hpz, hyz⟩

/-- A non-matching member survives update_first unchanged. -/
theorem mem_update_first_of_not {p : α → Bool} {f : α → α} {l : List α} {x : α}
    (hx : x ∈ l) (hpx : p x = false) : x ∈ update_first p f l := by
  induction l with
  | nil => simp at hx
  | cons y ys ih =>
    rcases List.mem_cons.mp hx with rfl | hmem
    · simp [update_first, hpx]
    · by_cases hy : p y = true
      · simp [update_first, hy, List.mem_cons_of_mem _ hmem]
      · have hy' : p y = false := by
          cases hpy : p y
          · rfl
          · exact absurd hpy hy
        simp [update_first, hy', List.mem_cons, ih hmem]

/-- The image of the first match is a member of the updated list. -/
theorem image_mem_update_first {p : α → Bool} {f : α → α} {l : List α} {x : α}
    (h : l.find? p = some x) : f x ∈ update_first p f l := by
  induction l with
  | nil => simp at h
  | cons y ys ih =>
    by_cases hy : p y = true
    · rw [List.find?_cons_of_pos _ hy] at h
      injection h with h
      subst h
      simp [update_first, hy]
    · have hy' : p y = false := by
        cases hpy : p y
        · rfl
        · exact absurd hpy hy
      rw [List.find?_cons_of_neg _ (by simp [hy'])] at h
      simp [update_first, hy', List.mem_cons, ih h]

/-- Pairwise relations survive update_first when the function respects the
relation on matched elements. -/
theorem pairwise_update_first {R : α → α → Prop} {p : α → Bool} {f : α → α} {l : List α}
    (hf : ∀ x, p x = true → (∀ y, R x y → R (f x) y) ∧ (∀ y, R y x → R y (f x)))
    (hl : l.Pairwise R) : (update_first p f l).Pairwise R := by
  induction l with
  | nil => exact List.Pairwise.nil
  | cons x xs ih =>
    rcases List.pairwise_cons.mp hl with ⟨hx, hxs⟩
    by_cases hp : p x = true
    · simp only [update_first, hp, if_true]
      exact List.pairwise_cons.mpr ⟨fun y hy => (hf x hp).1 y (hx y hy), hxs⟩
    · have hp' : p x = false := by
        cases hpx : p x
        · rfl
        · exact absurd hpx hp
      simp only [update_first, hp', Bool.false_eq_true, if_false]
      refine List.pairwise_cons.mpr ⟨fun y hy => ?_, ih hxs⟩
      rcases mem_update_first hy with hmem | ⟨z, hz, hpz, rfl⟩
      · exact hx y hmem
      · exact (hf z hpz).2 x (hx z hz)

/-- Lookup of the updated key in an association-list update. -/
theorem lookup_update_assoc_self {α : Type} (ml : List (String × α)) (k : String) (g : α → α) :
    lookup_list (update_first (fun q => q.1 == k) (fun q => (q.1, g q.2)) ml) k =
      (lookup_list ml k).map g := by
  unfold lookup_list
  rw [@find?_update_first_self _ (fun q => q.1 == k) (fun q => (q.1, g q.2)) ml
    (fun x hx => hx)]
  cases ml.find? (fun q => q.1 == k) <;> rfl

/-- Lookup of a different key in an association-list update. -/
theorem lookup_update_assoc_other {α : Type} (ml : List (String × α)) (k k' : String)
    (g : α → α) (h : k' ≠ k) :
    lookup_list (update_first (fun q => q.1 == k) (fun q => (q.1, g q.2)) ml) k' =
      lookup_list ml k' := by
  unfold lookup_list
  rw [find?_update_first_other (fun x hx => ?_) (fun x hx => ?_)]
  · simp only [beq_iff_eq] at hx ⊢
    rw [hx]
    exact beq_eq_false_iff_ne.mpr (fun hk => h hk.symm)
  · simp only [beq_iff_eq] at hx ⊢
    rw [hx]
    exact beq_eq_false_iff_ne.mpr (fun hk => h hk.symm)

/-- Lookup after a dict assignment at the assigned key. -/
theorem lookup_set_list_self {α : Type} (ml : List (String × α)) (k : String) (v : α) :
    lookup_list (set_list ml k v) k = some v := by
  unfold set_list
  by_cases h : (lookup_list ml k).isSome
  · rw [if_pos h]
    rw [lookup_update_assoc_self ml k (fun _ => v)]
    rcases Option.isSome_iff_exists.mp h with ⟨w, hw⟩
    rw [hw]
    rfl
  · rw [if_neg h]
    unfold lookup_list at h ⊢
    rcases hfind : ml.find? (fun q => q.1 == k) with _ | w
    · rw [List.find?_append, hfind, Option.none_or, List.find?_cons_of_pos _ (by simp)]
      rfl
    · rw [hfind] at h
      simp at h

/-- Lookup of a different key after a dict assignment. -/
theorem lookup_set_list_other {α : Type} (ml : List (String × α)) (k k' : String) (v : α)
    (h : k' ≠ k) : lookup_list (set_list ml k v) k' = lookup_list ml k' := by
  unfold set_list
  by_cases hs : (lookup_list ml k).isSome
  · rw [if_pos hs]
    exact lookup_update_assoc_other ml k k' (fun _ => v) h
  · rw [if_neg hs]
    unfold lookup_list
    rw [List.find?_append]
    rcases hfind : ml.find? (fun q => q.1 == k') with _ | w
    · rw [hfind, Option.none_or, List.find?_cons_of_neg _ (by simpa using Ne.symm h)]
      rfl
    · rw [hfind]
      rfl

/-- Claim C10: updating metrics for a (model, version) pair that is not in
the registry is a silent no-op: the state is returned untouched and no
rollback is triggered. -/
theorem c10_unknown_version_noop (now : ℚ) (fid : String) (s : ManagerState)
    (model_name version : String) (response_time : ℚ) (success : Bool)
    (confidence cost : ℚ)
    (h : get_model_version s model_name version = none) :
    update_model_metrics now fid s model_name version response_time success
      confidence cost = (s, false) := by
  unfold update_model_metrics
  rw [h]

/-- Witness for c10_unknown_version_noop on the empty registry. -/
theorem c10_unknown_version_noop_witness :
    get_model_version {} "m" "v1" = none ∧
      update_model_metrics 1 "d" {} "m" "v1" 1 true 0 0 = ({}, false) :=
  ⟨rfl, c10_unknown_version_noop 1 "d" {} "m" "v1" 1 true 0 0 rfl⟩

/-- Claim C6: creating a version whose (model name, version string) pair is
already present fails with the duplicate-version error.  The duplicate check
precedes every mutation in the source body and the error propagates through
the re-raising except clause, so the registry is unchanged: the embedding
returns only the error, with no successor state. -/
theorem c6_duplicate_version_error (now : ℚ) (fid : String) (s : ManagerState)
    (model_name version : String) (configuration : ModelConfiguration)
    (description : String) (tags : List String) (parent_version : Option String)
    (l : List ModelVersion) (mv : ModelVersion)
    (hl : lookup_list s.models model_name = some l)
    (hmem : mv ∈ l) (hver : mv.version = version) :
    create_model_version now fid s model_name version configuration description tags
        parent_version =
      .error ("Version " ++ version ++ " already exists for model " ++ model_name) := by
  unfold create_model_version
  have hdup : l.any (fun v => v.version == version) = true :=
    List.any_eq_true.mpr ⟨mv, hmem, by simp [hver]⟩
  simp [hl, hdup]

/-- Witness for c6_duplicate_version_error: re-creating v1 of model m in the
concrete one-version registry fails. -/
theorem c6_duplicate_version_error_witness :
    (∃ l, lookup_list example_pending_state.models "m" = some l ∧
      ∃ mv ∈ l, mv.version = "v1") ∧
      create_model_version 2 "id2" example_pending_state "m" "v1"
          { provider := "p", model_name := "m", model_version := "x" } "" [] none =
        .error ("Version " ++ "v1" ++ " already exists for model " ++ "m") := by
  refine ⟨⟨_, rfl, _, List.mem_cons_self _ _, rfl⟩, ?_⟩
  exact c6_duplicate_version_error 2 "id2" example_pending_state "m" "v1"
    { provider := "p", model_name := "m", model_version := "x" } "" [] none
    _ _ rfl (List.mem_cons_self _ _) rfl

/-- Claim C8: for fixed confidence level and power (and sample-size bounds),
the required sample size is monotonically non-increasing in the minimum
detectable effect. -/
theorem c8_sample_size_monotone (c1 c2 : ABTestConfiguration)
    (hconf : c2.confidence_level = c1.confidence_level)
    (hpow : c2.power = c1.power)
    (hmin : c2.min_sample_size_per_variant = c1.min_sample_size_per_variant)
    (hmax : c2.max_sample_size_per_variant = c1.max_sample_size_per_variant)
    (h1 : 0 < c1.minimum_detectable_effect)
    (h12 : c1.minimum_detectable_effect ≤ c2.minimum_detectable_effect) :
    calculate_required_sample_size c2 ≤ calculate_required_sample_size c1 := by
  have h2 : 0 < c2.minimum_detectable_effect := lt_of_lt_of_le h1 h12
  unfold calculate_required_sample_size
  rw [if_neg (ne_of_gt h1), if_neg (ne_of_gt h2), hconf, hpow, hmin, hmax]
  refine min_le_min le_rfl (max_le_max le_rfl (Int.floor_le_floor ?_))
  have hza : (0:ℚ) < (if c1.confidence_level = 95/100 then (196/100:ℚ) else 258/100) := by
    split_ifs <;> norm_num
  have hzb : (0:ℚ) < (if c1.power = 8/10 then (84/100:ℚ) else 128/100) := by
    split_ifs <;> norm_num
  have hnum : (0:ℚ) ≤ ((if c1.confidence_level = 95/100 then (196/100:ℚ) else 258/100) +
      (if c1.power = 8/10 then (84/100:ℚ) else 128/100)) ^ 2 * 2 * (95/100) * (1 - 95/100) := by
    have := add_pos hza hzb
    positivity
  exact div_le_div_of_nonneg_left hnum (by positivity)
    (pow_le_pow_left₀ h1.le h12 2)

/-- Witness for c8_sample_size_monotone: doubling the minimum detectable
effect from 5% to 10% does not increase the required sample size. -/
theorem c8_sample_size_monotone_witness :
    (0:ℚ) < 1/20 ∧ (1/20:ℚ) ≤ 1/10 ∧
      calculate_required_sample_size
          { example_ab_config with minimum_detectable_effect := 1/10 } ≤
        calculate_required_sample_size
          { example_ab_config with minimum_detectable_effect := 1/20 } := by
  refine ⟨by norm_num, by norm_num, ?_⟩
  exact c8_sample_size_monotone
    { example_ab_config with minimum_detectable_effect := 1/20 }
    { example_ab_config with minimum_detectable_effect := 1/10 }
    rfl rfl rfl rfl (by norm_num) (by norm_num)

/-- update_model_version_state leaves the active-model index alone. -/
theorem active_models_update_mvs (s : ManagerState) (n v : String)
    (f : ModelVersion → ModelVersion) :
    (update_model_version_state s n v f).active_models = s.active_models := rfl

/-- update_model_version_state leaves the A/B test registry alone. -/
theorem ab_tests_update_mvs (s : ManagerState) (n v : String)
    (f : ModelVersion → ModelVersion) :
    (update_model_version_state s n v f).ab_tests = s.ab_tests := rfl

/-- The model list of the updated name after update_model_version_state. -/
theorem lookup_models_update_mvs_self (s : ManagerState) (n v : String)
    (f : ModelVersion → ModelVersion) :
    lookup_list (update_model_version_state s n v f).models n =
      (lookup_list s.models n).map (update_first (fun mv => mv.version == v) f) := by
  unfold update_model_version_state
  exact lookup_update_assoc_self s.models n _

/-- The model list of any other name after update_model_version_state. -/
theorem lookup_models_update_mvs_other (s : ManagerState) (n v : String)
    (f : ModelVersion → ModelVersion) (n' : String) (h : n' ≠ n) :
    lookup_list (update_model_version_state s n v f).models n' =
      lookup_list s.models n' := by
  unfold update_model_version_state
  exact lookup_update_assoc_other s.models n n' _ h

/-- Reading back the updated version after update_model_version_state, when
the update preserves the version string. -/
theorem get_model_version_update_self (s : ManagerState) (n v : String)
    (f : ModelVersion → ModelVersion) (hf : ∀ x, (f x).version = x.version) :
    get_model_version (update_model_version_state s n v f) n v =
      (get_model_version s n v).map f := by
  unfold get_model_version
  rw [lookup_models_update_mvs_self]
  cases hl : lookup_list s.models n with
  | none => rfl
  | some l =>
    simp only [Option.map_some']
    exact @find?_update_first_self _ (fun mv => mv.version == v) f l
      (fun x hx => by
        simp only [beq_iff_eq] at hx ⊢
        rw [hf x, hx])

/-- Reading back a different version after update_model_version_state, when
the update preserves the version string. -/
theorem get_model_version_update_other (s : ManagerState) (n v : String)
    (f : ModelVersion → ModelVersion) (v' : String) (hv : v' ≠ v)
    (hf : ∀ x, (f x).version = x.version) :
    get_model_version (update_model_version_state s n v f) n v' =
      get_model_version s n v' := by
  unfold get_model_version
  rw [lookup_models_update_mvs_self]
  cases hl : lookup_list s.models n with
  | none => rfl
  | some l =>
    simp only [Option.map_some']
    refine @find?_update_first_other _ (fun mv => mv.version == v)
      (fun mv => mv.version == v') f l (fun x hx => ?_) (fun x hx => ?_)
    · simp only [beq_iff_eq] at hx ⊢
      rw [hx]
      exact beq_eq_false_iff_ne.mpr (Ne.symm hv)
    · simp only [beq_iff_eq] at hx ⊢
      rw [hf x, hx]
      exact beq_eq_false_iff_ne.mpr (Ne.symm hv)

/-- Reading any version of a different model after update_model_version_state. -/
theorem get_model_version_update_other_model (s : ManagerState) (n v : String)
    (f : ModelVersion → ModelVersion) (n' v' : String) (h : n' ≠ n) :
    get_model_version (update_model_version_state s n v f) n' v' =
      get_model_version s n' v' := by
  unfold get_model_version
  rw [lookup_models_update_mvs_other s n v f n' h]

/-- Claim C9, counterexample: with the md5 bucket function abstracted as an
arbitrary pure function of the hashed string, two calls with the same test id
and the same non-None user id can still differ, because the empty string is
falsy in Python and the routing then hashes str(time.time()): here the two
calls happen at different instants and land in different buckets. -/
theorem c9_routing_counterexample :
    should_route_to_treatment String.length example_ab_tests "t" (some "") none "1" = true ∧
      should_route_to_treatment String.length example_ab_tests "t" (some "") none
        "123456789.0123456789012345678901234567890123456789012345678901234567890" = false := by
  constructor <;> rfl

/-- Claim C9 as amended: routing is deterministic per truthy identifier.
Two calls with the same test id and the same present non-empty user id agree
regardless of the request ids and of the clock; and when the user id is
absent or empty in both calls, two calls with the same non-empty request id
agree regardless of which falsy user id form each has and of the clock. -/
theorem c9_routing_deterministic_amended (md5_hex8 : String → Nat)
    (active_tests : List (String × ABTestConfiguration)) (test_id : String) :
    (∀ (u : String), u ≠ "" → ∀ (r1 r2 : Option String) (t1 t2 : String),
      should_route_to_treatment md5_hex8 active_tests test_id (some u) r1 t1 =
        should_route_to_treatment md5_hex8 active_tests test_id (some u) r2 t2) ∧
    (∀ (u1 u2 : Option String), (u1 = none ∨ u1 = some "") →
      (u2 = none ∨ u2 = some "") →
      ∀ (r : String), r ≠ "" → ∀ (t1 t2 : String),
      should_route_to_treatment md5_hex8 active_tests test_id u1 (some r) t1 =
        should_route_to_treatment md5_hex8 active_tests test_id u2 (some r) t2) := by
  constructor
  · intro u hu r1 r2 t1 t2
    unfold should_route_to_treatment
    cases lookup_list active_tests test_id with
    | none => rfl
    | some cfg => simp [py_str_or, hu]
  · intro u1 u2 h1 h2 r hr t1 t2
    unfold should_route_to_treatment
    cases lookup_list active_tests test_id with
    | none => rfl
    | some cfg =>
      have e1 : py_str_or u1 (py_str_or (some r) t1) = r := by
        rcases h1 with rfl | rfl <;> simp [py_str_or, hr]
      have e2 : py_str_or u2 (py_str_or (some r) t2) = r := by
        rcases h2 with rfl | rfl <;> simp [py_str_or, hr]
      dsimp only
      rw [e1, e2]

/-- Witness for c9_routing_deterministic_amended: one instance with a
concrete non-empty user id against differing request ids and clocks, and one
instance with the two falsy user id forms (empty string and absent) sharing
a concrete request id against differing clocks. -/
theorem c9_routing_deterministic_amended_witness :
    (("alice" : String) ≠ "" ∧
      should_route_to_treatment String.length example_ab_tests "t" (some "alice") none "1" =
        should_route_to_treatment String.length example_ab_tests "t" (some "alice")
          (some "req-9") "2.5") ∧
    ((some "" = (none : Option String) ∨ (some "" : Option String) = some "") ∧
      ((none : Option String) = none ∨ (none : Option String) = some "") ∧
      ("req-9" : String) ≠ "" ∧
      should_route_to_treatment String.length example_ab_tests "t" (some "") (some "req-9") "1" =
        should_route_to_treatment String.length example_ab_tests "t" none
          (some "req-9") "2.5") :=
  ⟨⟨by decide, (c9_routing_deterministic_amended String.length example_ab_tests "t").1
      "alice" (by decide) none (some "req-9") "1" "2.5"⟩,
    Or.inr rfl, Or.inl rfl, by decide,
    (c9_routing_deterministic_amended String.length example_ab_tests "t").2
      (some "") none (Or.inr rfl) (Or.inl rfl) "req-9" (by decide) "1" "2.5"⟩

/-- Claim C2, the counterexample part: deploying a canary whose requested
target traffic (5%) is below the configured rollout step (10%) leaves the
deployment with traffic_percentage 10 strictly above
target_traffic_percentage 5 immediately after deploy_model_version. -/
theorem c2_canary_counterexample :
    (deploy_model_version 2 "d1" example_pending_state "m" "v1" (some .canary) 5
        "u").toOption.map
      (fun r => (r.2.traffic_percentage, r.2.target_traffic_percentage)) = some (10, 5) ∧
      ¬((10 : ℚ) ≤ 5) := by
  exact ⟨rfl, by norm_num⟩

/-- Claim C5, counterexample: in the concrete two-version registry, deploying
v2 with BLUE_GREEN through the code leaves v2 PENDING with the active index
still on v1, while the spec-modelled blue-green cutover activates v2 at 100%
traffic; the two disagree, so BLUE_GREEN is not the spec's replace-equivalent
cutover. -/
theorem c5_blue_green_counterexample :
    ((deploy_model_version 3 "d1" example_two_version_state "m" "v2" (some .blue_green)
        100 "u").toOption.map
      (fun r => ((get_model_version r.1 "m" "v2").map (fun v => v.status), r.2.status,
        lookup_list r.1.active_models "m")) = some (some .pending, .pending, some "v1")) ∧
      ((deploy_blue_green_spec 3 "d1" example_two_version_state "m" "v2" 100
          "u").toOption.map
        (fun r => ((get_model_version r.1 "m" "v2").map (fun v => v.status), r.2.status,
          lookup_list r.1.active_models "m")) = some (some .active, .active, some "v2")) := by
  constructor <;> rfl

/-- Claim C5 as amended: deploying with BLUE_GREEN performs no cutover at
all: the call succeeds and appends a deployment that keeps its default
PENDING status at the requested traffic, while the version's status, its
current deployment, the active-model index (and with it the previously
active version, which is neither retired nor demoted) and every other
version and model are unchanged. -/
theorem c5_blue_green_amended (now : ℚ) (fid : String) (s : ManagerState)
    (model_name version : String) (traffic : ℚ) (deployed_by : String)
    (mv : ModelVersion) (h : get_model_version s model_name version = some mv) :
    ∃ s' dep,
      deploy_model_version now fid s model_name version (some .blue_green) traffic
          deployed_by = .ok (s', dep) ∧
      dep.status = .pending ∧
      dep.traffic_percentage = traffic ∧
      dep.target_traffic_percentage = traffic ∧
      s'.active_models = s.active_models ∧
      s'.ab_tests = s.ab_tests ∧
      (get_model_version s' model_name version).map (fun v => v.status) =
        some mv.status ∧
      (get_model_version s' model_name version).map (fun v => v.current_deployment) =
        some mv.current_deployment ∧
      (∀ v', v' ≠ version →
        get_model_version s' model_name v' = get_model_version s model_name v') ∧
      (∀ n' v', n' ≠ model_name →
        get_model_version s' n' v' = get_model_version s n' v') := by
  have hadd : ∀ (d : ModelDeployment) (x : ModelVersion),
      (add_deployment x d).version = x.version := by
    intro d x
    unfold add_deployment
    dsimp only
    split <;> rfl
  have hpend : ∀ (d : ModelDeployment) (x : ModelVersion), d.status = .pending →
      (add_deployment x d).status = x.status ∧
      (add_deployment x d).current_deployment = x.current_deployment := by
    intro d x hd
    unfold add_deployment
    dsimp only
    rw [if_neg (by rw [hd]; decide)]
    exact ⟨rfl, rfl⟩
  unfold deploy_model_version
  rw [h]
  refine ⟨_, _, rfl, rfl, rfl, rfl, rfl, rfl, ?_, ?_, ?_, ?_⟩
  · rw [get_model_version_update_self _ _ _ _ (fun x => hadd _ x), h]
    simp only [Option.map_some']
    exact congrArg some ((hpend _ mv rfl).1)
  · rw [get_model_version_update_self _ _ _ _ (fun x => hadd _ x), h]
    simp only [Option.map_some']
    exact congrArg some ((hpend _ mv rfl).2)
  · intro v' hv'
    exact get_model_version_update_other s model_name version _ v' hv' (fun x => hadd _ x)
  · intro n' v' hn'
    exact get_model_version_update_other_model s model_name version _ n' v' hn'

/-- Witness for c5_blue_green_amended on the concrete two-version registry. -/
theorem c5_blue_green_amended_witness :
    get_model_version example_two_version_state "m" "v2" = some example_v2_version ∧
      (∃ s' dep,
        deploy_model_version 3 "d1" example_two_version_state "m" "v2"
            (some .blue_green) 100 "u" = .ok (s', dep) ∧
        dep.status = .pending ∧
        dep.traffic_percentage = 100 ∧
        dep.target_traffic_percentage = 100 ∧
        s'.active_models = example_two_version_state.active_models ∧
        s'.ab_tests = example_two_version_state.ab_tests ∧
        (get_model_version s' "m" "v2").map (fun v => v.status) =
          some example_v2_version.status ∧
        (get_model_version s' "m" "v2").map (fun v => v.current_deployment) =
          some example_v2_version.current_deployment ∧
        (∀ v', v' ≠ "v2" →
          get_model_version s' "m" v' = get_model_version example_two_version_state "m" v') ∧
        (∀ n' v', n' ≠ "m" →
          get_model_version s' n' v' = get_model_version example_two_version_state n' v')) :=
  ⟨rfl, c5_blue_green_amended 3 "d1" example_two_version_state "m" "v2" 100 "u"
    example_v2_version rfl⟩

/-- Two members of a well-formed registry with the same version string are
the same version. -/
theorem registry_wf_version_inj {l : List ModelVersion} (h : registry_wf l)
    {a b : ModelVersion} (ha : a ∈ l) (hb : b ∈ l) (hv : a.version = b.version) :
    a = b := by
  by_cases hab : a = b
  · exact hab
  · have hsym : Symmetric (fun a b : ModelVersion =>
        a.version ≠ b.version ∧ a.created_at ≠ b.created_at) :=
      fun x y hxy => ⟨hxy.1.symm, hxy.2.symm⟩
    exact absurd hv (List.Pairwise.forall hsym h ha hb hab).1

/-- Two distinct members of a well-formed registry have distinct creation
times. -/
theorem registry_wf_created_ne {l : List ModelVersion} (h : registry_wf l)
    {a b : ModelVersion} (ha : a ∈ l) (hb : b ∈ l) (hab : a ≠ b) :
    a.created_at ≠ b.created_at := by
  have hsym : Symmetric (fun a b : ModelVersion =>
      a.version ≠ b.version ∧ a.created_at ≠ b.created_at) :=
    fun x y hxy => ⟨hxy.1.symm, hxy.2.symm⟩
  exact (List.Pairwise.forall hsym h ha hb hab).2

/-- A well-formed registry has no duplicate entries. -/
theorem registry_wf_nodup {l : List ModelVersion} (h : registry_wf l) : l.Nodup :=
  h.imp (fun hab heq => hab.1 (by rw [heq]))

/-- In a well-formed registry, the first-match lookup of a member by its
version string finds exactly that member. -/
theorem find?_version_of_mem {l : List ModelVersion} (hWF : registry_wf l)
    {w : ModelVersion} (hw : w ∈ l) :
    l.find? (fun mv => mv.version == w.version) = some w := by
  induction l with
  | nil => simp at hw
  | cons x xs ih =>
    rcases List.mem_cons.mp hw with rfl | hmem
    · exact List.find?_cons_of_pos _ (by simp)
    · rcases List.pairwise_cons.mp hWF with ⟨hx, hxs⟩
      have hne : x.version ≠ w.version := (hx w hmem).1
      rw [List.find?_cons_of_neg _ (by simpa using hne), ih hxs hmem]

/-- If the enumerate loop reports index i, then i is in range and the entry
there carries the searched version string. -/
theorem find_index_of_version_spec {cv : String} {l : List ModelVersion} {i : Nat}
    (h : find_index_of_version cv l = some i) :
    ∃ hi : i < l.length, (l.get ⟨i, hi⟩).version = cv := by
  induction l generalizing i with
  | nil => simp [find_index_of_version] at h
  | cons x xs ih =>
    unfold find_index_of_version at h
    by_cases hx : (x.version == cv) = true
    · rw [if_pos hx] at h
      injection h with h
      subst h
      exact ⟨Nat.succ_pos _, by simpa using hx⟩
    · rw [if_neg hx] at h
      cases hfi : find_index_of_version cv xs with
      | none => rw [hfi] at h; simp at h
      | some j =>
        rw [hfi] at h
        simp only [Option.map_some'] at h
        injection h with h
        subst h
        rcases ih hfi with ⟨hj, hv⟩
        exact ⟨Nat.succ_lt_succ hj, hv⟩

/-- The enumerate loop finds an index whenever an entry with the searched
version string is present. -/
theorem find_index_of_version_is_some {cv : String} {l : List ModelVersion}
    {x : ModelVersion} (hx : x ∈ l) (hv : x.version = cv) :
    ∃ i, find_index_of_version cv l = some i := by
  induction l with
  | nil => simp at hx
  | cons y ys ih =>
    unfold find_index_of_version
    by_cases hy : (y.version == cv) = true
    · exact ⟨0, by rw [if_pos hy]⟩
    · rcases List.mem_cons.mp hx with rfl | hmem
      · exact absurd (by simp [hv]) hy
      · rcases ih hmem with ⟨j, hj⟩
        exact ⟨j + 1, by rw [if_neg hy, hj]; rfl⟩

/-- A member satisfying the search predicate makes find? succeed. -/
theorem find?_is_some_of_mem {α : Type} {p : α → Bool} {l : List α} {x : α}
    (hx : x ∈ l) (hp : p x = true) : ∃ y, l.find? p = some y := by
  induction l with
  | nil => simp at hx
  | cons z zs ih =>
    by_cases hz : p z = true
    · exact ⟨z, List.find?_cons_of_pos _ hz⟩
    · rcases List.mem_cons.mp hx with rfl | hmem
      · exact absurd hp hz
      · rcases ih hmem with ⟨y, hy⟩
        exact ⟨y, by rw [List.find?_cons_of_neg _ hz, hy]⟩

/-- On a pairwise-ordered list, the element found by find? relates to every
later satisfying element: it is the first one. -/
theorem find?_min_of_pairwise {α : Type} {R : α → α → Prop} {p : α → Bool}
    {l : List α} {x : α} (hs : l.Pairwise R) (hf : l.find? p = some x) :
    ∀ y ∈ l, p y = true → x = y ∨ R x y := by
  induction l with
  | nil => simp at hf
  | cons z zs ih =>
    rcases List.pairwise_cons.mp hs with ⟨hz, hzs⟩
    by_cases hpz : p z = true
    · rw [List.find?_cons_of_pos _ hpz] at hf
      injection hf with hf
      subst hf
      intro y hy hpy
      rcases List.mem_cons.mp hy with rfl | hmem
      · exact Or.inl rfl
      · exact Or.inr (hz y hmem)
    · rw [List.find?_cons_of_neg _ hpz] at hf
      intro y hy hpy
      rcases List.mem_cons.mp hy with rfl | hmem
      · exact absurd hpy hpz
      · exact ih hzs hf y hmem hpy

/-- The entry at index i of a list is among its first i+1 entries. -/
theorem get_mem_take {α : Type} (S : List α) (i : Nat) (hi : i < S.length) :
    S.get ⟨i, hi⟩ ∈ S.take (i + 1) := by
  have hlen : i < (S.take (i + 1)).length := by
    rw [List.length_take]
    omega
  have h2 : (S.take (i + 1)).get ⟨i, hlen⟩ = S.get ⟨i, hi⟩ := List.getElem_take S
  rw [← h2]
  exact List.get_mem _ _ _

/-- The entry at an index beyond i lies in the suffix after index i. -/
theorem get_mem_drop {α : Type} (S : List α) (i j : Nat) (hj : j < S.length)
    (hij : i < j) : S.get ⟨j, hj⟩ ∈ S.drop (i + 1) := by
  induction S generalizing i j with
  | nil => simp at hj
  | cons x xs ih =>
    cases j with
    | zero => omega
    | succ k =>
      have hk : k < xs.length := by simpa using hj
      have hget : (x :: xs).get ⟨k + 1, hj⟩ = xs.get ⟨k, hk⟩ := rfl
      cases i with
      | zero =>
        rw [hget]
        exact List.get_mem xs k hk
      | succ i' =>
        rw [hget]
        exact ih i' k hk (by omega)

/-- A member strictly older than the entry at index i of a list sorted by
descending creation time lies in the suffix after index i. -/
theorem mem_drop_of_older {S : List ModelVersion} (hsorted : List.Sorted created_desc S)
    {i : Nat} (hi : i < S.length) {W : ModelVersion} (hW : W ∈ S)
    (hold : W.created_at < (S.get ⟨i, hi⟩).created_at) : W ∈ S.drop (i + 1) := by
  rcases List.mem_iff_get.mp hW with ⟨⟨j, hj⟩, hgj⟩
  have hij : i < j := by
    rcases lt_trichotomy i j with h | h | h
    · exact h
    · exfalso
      subst h
      rw [show (⟨i, hi⟩ : Fin S.length) = ⟨i, hj⟩ from rfl, hgj] at hold
      exact lt_irrefl _ hold
    · exfalso
      have hrel := hsorted.rel_get_of_lt (show (⟨j, hj⟩ : Fin S.length) < ⟨i, hi⟩ from h)
      rw [hgj] at hrel
      exact absurd hold (not_lt.mpr hrel)
  rw [← hgj]
  exact get_mem_drop S i j hj hij

/-- Success case of _find_previous_stable_version: when some stable target
strictly older than the current version exists, the scan returns the version
string of the most recently created such target. -/
theorem find_previous_stable_core_found {l : List ModelVersion} {cur : ModelVersion}
    (hWF : registry_wf l) (hcur : cur ∈ l) {W : ModelVersion} (hW : W ∈ l)
    (hq : is_stable_target W = true) (hold : W.created_at < cur.created_at) :
    ∃ w ∈ l, is_stable_target w = true ∧ w.created_at < cur.created_at ∧
      (∀ w' ∈ l, is_stable_target w' = true → w'.created_at < cur.created_at →
        w'.created_at ≤ w.created_at) ∧
      find_previous_stable_core l cur.version = some w.version := by
  have hperm := List.perm_insertionSort created_desc l
  have hsorted := List.sorted_insertionSort created_desc l
  set S := List.insertionSort created_desc l with hS
  have hsym : Symmetric (fun a b : ModelVersion =>
      a.version ≠ b.version ∧ a.created_at ≠ b.created_at) :=
    fun x y hxy => ⟨hxy.1.symm, hxy.2.symm⟩
  have hWFS : registry_wf S :=
    (hperm.pairwise_iff (fun hxy => ⟨hxy.1.symm, hxy.2.symm⟩)).mpr hWF
  have hcurS : cur ∈ S := hperm.mem_iff.mpr hcur
  have hWS : W ∈ S := hperm.mem_iff.mpr hW
  rcases find_index_of_version_is_some hcurS rfl with ⟨i, hifind⟩
  rcases find_index_of_version_spec hifind with ⟨hi, hvi⟩
  have hgeti : S.get ⟨i, hi⟩ = cur :=
    registry_wf_version_inj hWFS (List.get_mem S i hi) hcurS hvi
  have hWdrop : W ∈ S.drop (i + 1) :=
    mem_drop_of_older hsorted hi hWS (by rw [hgeti]; exact hold)
  rcases find?_is_some_of_mem hWdrop hq with ⟨w, hfindw⟩
  have hqw : is_stable_target w = true := List.find?_some hfindw
  have hwdrop : w ∈ S.drop (i + 1) := List.mem_of_find?_eq_some hfindw
  have hwS : w ∈ S := List.drop_subset _ _ hwdrop
  have hwl : w ∈ l := hperm.mem_iff.mp hwS
  have hwle : w.created_at ≤ cur.created_at := by
    have hrel := hsorted.rel_of_mem_take_of_mem_drop (get_mem_take S i hi) hwdrop
    rw [hgeti] at hrel
    exact hrel
  have hwne : w ≠ cur := by
    intro heq
    have hnodup : S.Nodup := registry_wf_nodup hWFS
    have hdisj : List.Disjoint (S.take (i + 1)) (S.drop (i + 1)) :=
      List.disjoint_of_nodup_append (by rw [List.take_append_drop]; exact hnodup)
    have hcurtake : cur ∈ S.take (i + 1) := by
      rw [← hgeti]
      exact get_mem_take S i hi
    exact hdisj hcurtake (heq ▸ hwdrop)
  have hwlt : w.created_at < cur.created_at :=
    lt_of_le_of_ne hwle (registry_wf_created_ne hWFS hwS hcurS hwne)
  have hmax : ∀ w' ∈ l, is_stable_target w' = true →
      w'.created_at < cur.created_at → w'.created_at ≤ w.created_at := by
    intro w' hw'l hq' hold'
    have hw'S : w' ∈ S := hperm.mem_iff.mpr hw'l
    have hw'drop : w' ∈ S.drop (i + 1) :=
      mem_drop_of_older hsorted hi hw'S (by rw [hgeti]; exact hold')
    have hpair : (S.drop (i + 1)).Pairwise created_desc :=
      hsorted.sublist (List.drop_sublist _ _)
    rcases find?_min_of_pairwise hpair hfindw w' hw'drop hq' with rfl | hrel
    · exact le_refl _
    · exact hrel
  refine ⟨w, hwl, hqw, hwlt, hmax, ?_⟩
  unfold find_previous_stable_core
  rw [← hS]
  simp only [hifind, hfindw, Option.map_some']

/-- Failure case of _find_previous_stable_version: when no stable target
strictly older than the current version exists, the scan returns none. -/
theorem find_previous_stable_core_none {l : List ModelVersion} {cur : ModelVersion}
    (hWF : registry_wf l) (hcur : cur ∈ l)
    (hnone : ∀ w ∈ l, is_stable_target w = true → ¬ w.created_at < cur.created_at) :
    find_previous_stable_core l cur.version = none := by
  have hperm := List.perm_insertionSort created_desc l
  have hsorted := List.sorted_insertionSort created_desc l
  set S := List.insertionSort created_desc l with hS
  have hWFS : registry_wf S :=
    (hperm.pairwise_iff (fun hxy => ⟨hxy.1.symm, hxy.2.symm⟩)).mpr hWF
  have hcurS : cur ∈ S := hperm.mem_iff.mpr hcur
  rcases find_index_of_version_is_some hcurS rfl with ⟨i, hifind⟩
  rcases find_index_of_version_spec hifind with ⟨hi, hvi⟩
  have hgeti : S.get ⟨i, hi⟩ = cur :=
    registry_wf_version_inj hWFS (List.get_mem S i hi) hcurS hvi
  cases hfind : (S.drop (i + 1)).find? is_stable_target with
  | none =>
    unfold find_previous_stable_core
    rw [← hS]
    simp only [hifind, hfind, Option.map_none']
  | some w =>
    exfalso
    have hqw : is_stable_target w = true := List.find?_some hfind
    have hwdrop : w ∈ S.drop (i + 1) := List.mem_of_find?_eq_some hfind
    have hwS : w ∈ S := List.drop_subset _ _ hwdrop
    have hwl : w ∈ l := hperm.mem_iff.mp hwS
    have hwle : w.created_at ≤ cur.created_at := by
      have hrel := hsorted.rel_of_mem_take_of_mem_drop (get_mem_take S i hi) hwdrop
      rw [hgeti] at hrel
      exact hrel
    have hwne : w ≠ cur := by
      intro heq
      have hnodup : S.Nodup := registry_wf_nodup hWFS
      have hdisj : List.Disjoint (S.take (i + 1)) (S.drop (i + 1)) :=
        List.disjoint_of_nodup_append (by rw [List.take_append_drop]; exact hnodup)
      have hcurtake : cur ∈ S.take (i + 1) := by
        rw [← hgeti]
        exact get_mem_take S i hi
      exact hdisj hcurtake (heq ▸ hwdrop)
    exact hnone w hwl hqw
      (lt_of_le_of_ne hwle (registry_wf_created_ne hWFS hwS hcurS hwne))

/-- get_model_version finds exactly a given member of a well-formed registry
list. -/
theorem get_model_version_of_mem (s : ManagerState) (model_name : String)
    {l : List ModelVersion} (hl : lookup_list s.models model_name = some l)
    (hWF : registry_wf l) {w : ModelVersion} (hw : w ∈ l) :
    get_model_version s model_name w.version = some w := by
  unfold get_model_version
  rw [hl]
  exact find?_version_of_mem hWF hw

/-- find_previous_stable_version reduces to its core scan on the stored
version list. -/
theorem find_previous_stable_version_eq (s : ManagerState) (model_name : String)
    {l : List ModelVersion} (hl : lookup_list s.models model_name = some l)
    (cv : String) :
    find_previous_stable_version s model_name cv = find_previous_stable_core l cv := by
  unfold find_previous_stable_version
  rw [hl]

/-- Claim C3: rollback_model with target_version omitted selects the most
recently created strictly older version with status ACTIVE or RETIRED, at
least one recorded request and error rate below 5%, making it the active
version; when no such version exists the call fails, surfaced to the caller
as a False result with the state untouched (the internal
no-rollback-target ValueError is caught by the method's except clause). -/
theorem c3_rollback_target_selection (now : ℚ) (fid : String) (s : ManagerState)
    (model_name reason : String) (l : List ModelVersion) (cur : ModelVersion)
    (hl : lookup_list s.models model_name = some l)
    (hWF : registry_wf l)
    (hact : lookup_list s.active_models model_name = some cur.version)
    (hcur : cur ∈ l) :
    ((∀ w ∈ l, is_stable_target w = true → ¬ w.created_at < cur.created_at) →
        rollback_model now fid s model_name none reason = (s, false)) ∧
      (∀ W ∈ l, is_stable_target W = true → W.created_at < cur.created_at →
        ∃ w ∈ l, is_stable_target w = true ∧ w.created_at < cur.created_at ∧
          (∀ w' ∈ l, is_stable_target w' = true → w'.created_at < cur.created_at →
            w'.created_at ≤ w.created_at) ∧
          (rollback_model now fid s model_name none reason).2 = true ∧
          lookup_list (rollback_model now fid s model_name none reason).1.active_models
              model_name = some w.version) := by
  have hget : get_model_version s model_name cur.version = some cur :=
    get_model_version_of_mem s model_name hl hWF hcur
  constructor
  · intro hnone
    have hfve : find_previous_stable_version s model_name cur.version = none := by
      rw [find_previous_stable_version_eq s model_name hl]
      exact find_previous_stable_core_none hWF hcur hnone
    unfold rollback_model
    simp only [hact, hget, hfve]
  · intro W hW hq hold
    rcases find_previous_stable_core_found hWF hcur hW hq hold with
      ⟨w, hwl, hqw, hwlt, hmax, hcore⟩
    have hfve : find_previous_stable_version s model_name cur.version = some w.version := by
      rw [find_previous_stable_version_eq s model_name hl]
      exact hcore
    have hgetw : get_model_version s model_name w.version = some w :=
      get_model_version_of_mem s model_name hl hWF hwl
    refine ⟨w, hwl, hqw, hwlt, hmax, ?_, ?_⟩
    · unfold rollback_model
      simp only [hact, hget, hfve, hgetw]
    · unfold rollback_model
      simp only [hact, hget, hfve, hgetw]
      exact lookup_set_list_self s.active_models model_name w.version

/-- Witness for c3_rollback_target_selection on the concrete two-version
registry: the retired healthy v1 qualifies and becomes active again. -/
theorem c3_rollback_target_selection_witness :
    (lookup_list example_rollback_state.models "m" =
        some [example_rb_v1, example_rb_v2] ∧
      registry_wf [example_rb_v1, example_rb_v2] ∧
      lookup_list example_rollback_state.active_models "m" =
        some example_rb_v2.version ∧
      example_rb_v2 ∈ [example_rb_v1, example_rb_v2]) ∧
      (((∀ w ∈ [example_rb_v1, example_rb_v2], is_stable_target w = true →
          ¬ w.created_at < example_rb_v2.created_at) →
            rollback_model 5 "rb1" example_rollback_state "m" none "manual" =
              (example_rollback_state, false)) ∧
        (∀ W ∈ [example_rb_v1, example_rb_v2], is_stable_target W = true →
          W.created_at < example_rb_v2.created_at →
          ∃ w ∈ [example_rb_v1, example_rb_v2], is_stable_target w = true ∧
            w.created_at < example_rb_v2.created_at ∧
            (∀ w' ∈ [example_rb_v1, example_rb_v2], is_stable_target w' = true →
              w'.created_at < example_rb_v2.created_at →
              w'.created_at ≤ w.created_at) ∧
            (rollback_model 5 "rb1" example_rollback_state "m" none "manual").2 = true ∧
            lookup_list (rollback_model 5 "rb1" example_rollback_state "m" none
                "manual").1.active_models "m" = some w.version)) :=
  by
  have hwf : registry_wf [example_rb_v1, example_rb_v2] := by decide
  have hmem : example_rb_v2 ∈ [example_rb_v1, example_rb_v2] :=
    List.mem_cons_of_mem _ (List.mem_cons_self _ _)
  exact ⟨⟨rfl, hwf, rfl, hmem⟩,
    c3_rollback_target_selection 5 "rb1" example_rollback_state "m" "manual"
      [example_rb_v1, example_rb_v2] example_rb_v2 rfl hwf rfl hmem⟩

/-- should_rollback reports the error-rate breach first when auto-rollback is
enabled, enough data has accumulated, and the stored error rate is above the
deployment threshold. -/
theorem should_rollback_error_breach (v : ModelVersion) (d : ModelDeployment)
    (hd : v.current_deployment = some d) (hauto : d.auto_rollback_enabled = true)
    (hreq : ¬ v.metrics.total_requests < 100)
    (herr : d.rollback_threshold_error_rate < v.metrics.error_rate) :
    should_rollback v = (true, "Error rate exceeds threshold") := by
  unfold should_rollback
  rw [hd]
  dsimp only
  rw [hauto]
  simp only [Bool.not_true, Bool.false_eq_true, if_false, if_neg hreq, if_pos herr]

/-- Recording a failed request increments the totals and stores the stepped
error rate. -/
theorem update_request_metrics_failure (now : ℚ) (m : ModelMetrics)
    (response_time confidence cost : ℚ) :
    (update_request_metrics now m response_time false confidence cost).total_requests
        = m.total_requests + 1 ∧
      (update_request_metrics now m response_time false confidence cost).error_rate =
        ((m.failed_requests : ℚ) + 1) / ((m.total_requests : ℚ) + 1) := by
  have hc1 : ∀ (x : ModelMetrics) (rt : ℚ),
      (urm_response_time x rt).total_requests = x.total_requests ∧
        (urm_response_time x rt).failed_requests = x.failed_requests := by
    intro x rt
    unfold urm_response_time
    split_ifs <;> exact ⟨rfl, rfl⟩
  have hc2 : ∀ (x : ModelMetrics) (c : ℚ),
      (urm_confidence x c).total_requests = x.total_requests ∧
        (urm_confidence x c).failed_requests = x.failed_requests := by
    intro x c
    unfold urm_confidence
    split_ifs <;> exact ⟨rfl, rfl⟩
  have hc3 : ∀ (x : ModelMetrics) (c : ℚ),
      (urm_cost x c).total_requests = x.total_requests ∧
        (urm_cost x c).failed_requests = x.failed_requests := by
    intro x c
    unfold urm_cost
    dsimp only
    split_ifs <;> exact ⟨rfl, rfl⟩
  unfold update_request_metrics
  have htot : (urm_cost (urm_confidence (urm_response_time
      (urm_counters (urm_timestamps now m) false) response_time) confidence)
        cost).total_requests = m.total_requests + 1 := by
    rw [(hc3 _ _).1, (hc2 _ _).1, (hc1 _ _).1]
    rfl
  have hfail : (urm_cost (urm_confidence (urm_response_time
      (urm_counters (urm_timestamps now m) false) response_time) confidence)
        cost).failed_requests = m.failed_requests + 1 := by
    rw [(hc3 _ _).2, (hc2 _ _).2, (hc1 _ _).2]
    rfl
  constructor
  · rw [show ∀ x : ModelMetrics, (urm_error_rate x).total_requests = x.total_requests
      from fun x => rfl]
    exact htot
  · rw [show ∀ x : ModelMetrics, (urm_error_rate x).error_rate =
        (if (0 : Nat) < x.total_requests
          then (x.failed_requests : ℚ) / (x.total_requests : ℚ) else 0)
      from fun x => rfl]
    rw [htot, hfail]
    rw [if_pos (Nat.succ_pos _)]
    push_cast
    ring

/-- Recording one extra failure cannot lower the error rate. -/
theorem error_rate_step_le (fr tr : Nat) (hle : fr ≤ tr) (h0 : 0 < tr) :
    (fr : ℚ) / (tr : ℚ) ≤ ((fr : ℚ) + 1) / ((tr : ℚ) + 1) := by
  have htr : (0:ℚ) < (tr:ℚ) := by exact_mod_cast h0
  have hfr : (fr:ℚ) ≤ (tr:ℚ) := by exact_mod_cast hle
  rw [div_le_div_iff₀ htr (by linarith)]
  nlinarith

/-- add_deployment never changes the owning version string. -/
theorem add_deployment_version (v : ModelVersion) (d : ModelDeployment) :
    (add_deployment v d).version = v.version := by
  unfold add_deployment
  dsimp only
  split <;> rfl

/-- Retiring the current deployment never changes the version string. -/
theorem retire_version (now : ℚ) (x : ModelVersion) :
    ({ retire_current_deployment now x with status := ModelStatus.retired }).version
      = x.version := by
  unfold retire_current_deployment
  cases x.current_deployment <;> rfl

/-- get_model_version ignores the active-model index. -/
theorem get_model_version_set_active (s : ManagerState) (x : List (String × String))
    (n v : String) :
    get_model_version { s with active_models := x } n v = get_model_version s n v := rfl

/-- Success behavior of rollback_model with the target omitted: some most
recent qualifying strictly older version w is restored as the active model
at 100% traffic with an ACTIVE deployment, and the current version is
retired. -/
theorem rollback_model_success (now : ℚ) (fid : String) (s : ManagerState)
    (model_name reason : String) (l : List ModelVersion) (cur W : ModelVersion)
    (hl : lookup_list s.models model_name = some l)
    (hWF : registry_wf l)
    (hact : lookup_list s.active_models model_name = some cur.version)
    (hcur : cur ∈ l) (hW : W ∈ l) (hq : is_stable_target W = true)
    (hold : W.created_at < cur.created_at) :
    ∃ w : ModelVersion, is_stable_target w = true ∧ w.created_at < cur.created_at ∧
      w.version ≠ cur.version ∧
      (rollback_model now fid s model_name none reason).2 = true ∧
      lookup_list (rollback_model now fid s model_name none reason).1.active_models
          model_name = some w.version ∧
      (∃ res, get_model_version (rollback_model now fid s model_name none reason).1
          model_name w.version = some res ∧ res.status = .active ∧
        ∃ d, res.current_deployment = some d ∧
          d.status = .active ∧ d.traffic_percentage = 100) ∧
      (get_model_version (rollback_model now fid s model_name none reason).1
          model_name cur.version).map (fun v => v.status) = some .retired := by
  have hget : get_model_version s model_name cur.version = some cur :=
    get_model_version_of_mem s model_name hl hWF hcur
  rcases find_previous_stable_core_found hWF hcur hW hq hold with
    ⟨w, hwl, hqw, hwlt, _, hcore⟩
  have hfve : find_previous_stable_version s model_name cur.version = some w.version := by
    rw [find_previous_stable_version_eq s model_name hl]
    exact hcore
  have hgetw : get_model_version s model_name w.version = some w :=
    get_model_version_of_mem s model_name hl hWF hwl
  have hwne : w ≠ cur := by
    intro heq
    rw [heq] at hwlt
    exact lt_irrefl _ hwlt
  have hsym : Symmetric (fun a b : ModelVersion =>
      a.version ≠ b.version ∧ a.created_at ≠ b.created_at) :=
    fun x y hxy => ⟨hxy.1.symm, hxy.2.symm⟩
  have hwv : w.version ≠ cur.version := (List.Pairwise.forall hsym hWF hwl hcur hwne).1
  refine ⟨w, hqw, hwlt, hwv, ?_, ?_, ?_, ?_⟩
  · unfold rollback_model
    simp only [hact, hget, hfve, hgetw]
  · unfold rollback_model
    simp only [hact, hget, hfve, hgetw]
    exact lookup_set_list_self s.active_models model_name w.version
  · unfold rollback_model
    simp only [hact, hget, hfve, hgetw]
    rw [get_model_version_update_other _ _ _ _ _ hwv (by intro x; rfl)]
    rw [get_model_version_set_active]
    rw [get_model_version_update_self _ _ _ _ (by intro x; exact add_deployment_version x _)]
    rw [get_model_version_update_other _ _ _ _ _ hwv (by intro x; exact retire_version now x)]
    rw [hgetw]
    simp only [Option.map_some']
    exact ⟨_, rfl, rfl, _, rfl, rfl, rfl⟩
  · unfold rollback_model
    simp only [hact, hget, hfve, hgetw]
    rw [get_model_version_update_self _ _ _ _ (by intro x; rfl)]
    rw [get_model_version_set_active]
    rw [get_model_version_update_other _ _ _ _ _ (Ne.symm hwv)
      (by intro x; exact add_deployment_version x _)]
    rw [get_model_version_update_self _ _ _ _ (by intro x; exact retire_version now x)]
    rw [hget]
    rfl

/-- Claim C1: with an ACTIVE version whose auto-rollback-enabled deployment
already shows at least 100 requests and an error rate above its threshold,
and with a strictly older stable version available, the next
update_model_metrics call for the regressed version (here recording one more
failure) rolls back: a qualifying previous version becomes the active model
again, ACTIVE at 100% traffic, and the regressed version is RETIRED. -/
theorem c1_auto_rollback_restores_previous (now : ℚ) (fid : String) (s : ManagerState)
    (model_name : String) (response_time confidence cost : ℚ)
    (l : List ModelVersion) (cur : ModelVersion) (D : ModelDeployment)
    (W : ModelVersion)
    (hl : lookup_list s.models model_name = some l)
    (hWF : registry_wf l)
    (hcur : cur ∈ l)
    (hact : lookup_list s.active_models model_name = some cur.version)
    (hstatus : cur.status = .active)
    (hdep : cur.current_deployment = some D)
    (hauto : D.auto_rollback_enabled = true)
    (hstrat : D.deployment_strategy = .replace ∨ D.deployment_strategy = .canary)
    (hreq : 100 ≤ cur.metrics.total_requests)
    (hcnt : cur.metrics.failed_requests ≤ cur.metrics.total_requests)
    (herr : D.rollback_threshold_error_rate <
      (cur.metrics.failed_requests : ℚ) / (cur.metrics.total_requests : ℚ))
    (hW : W ∈ l) (hq : is_stable_target W = true)
    (hold : W.created_at < cur.created_at) :
    ∃ w : ModelVersion, is_stable_target w = true ∧ w.created_at < cur.created_at ∧
      (update_model_metrics now fid s model_name cur.version response_time false
        confidence cost).2 = true ∧
      lookup_list (update_model_metrics now fid s model_name cur.version response_time
        false confidence cost).1.active_models model_name = some w.version ∧
      (∃ res, get_model_version (update_model_metrics now fid s model_name cur.version
          response_time false confidence cost).1 model_name w.version = some res ∧
        res.status = .active ∧
        ∃ d, res.current_deployment = some d ∧
          d.status = .active ∧ d.traffic_percentage = 100) ∧
      (get_model_version (update_model_metrics now fid s model_name cur.version
          response_time false confidence cost).1 model_name cur.version).map
        (fun v => v.status) = some .retired := by
  have hget : get_model_version s model_name cur.version = some cur :=
    get_model_version_of_mem s model_name hl hWF hcur
  obtain ⟨htot, herrpost⟩ :=
    update_request_metrics_failure now cur.metrics response_time confidence cost
  have htot0 : 0 < cur.metrics.total_requests := by omega
  have hnotlt : ¬ (update_request_metrics now cur.metrics response_time false confidence
      cost).total_requests < 100 := by
    rw [htot]
    omega
  have herrgt : D.rollback_threshold_error_rate <
      (update_request_metrics now cur.metrics response_time false confidence
        cost).error_rate := by
    rw [herrpost]
    exact lt_of_lt_of_le herr (error_rate_step_le _ _ hcnt htot0)
  have hsr : should_rollback { cur with
      metrics := (update_request_metrics now cur.metrics response_time false
        confidence cost) } = (true, "Error rate exceeds threshold") :=
    should_rollback_error_breach _ D hdep hauto hnotlt herrgt
  set gfun : ModelVersion → ModelVersion := fun v => { v with
    metrics := update_request_metrics now v.metrics response_time false confidence cost }
    with hgfun
  set s1 : ManagerState :=
    update_model_version_state s model_name cur.version gfun with hs1
  have hl1 : lookup_list s1.models model_name =
      some (update_first (fun mv => mv.version == cur.version) gfun l) := by
    rw [hs1, lookup_models_update_mvs_self, hl]
    rfl
  have hWF1 : registry_wf (update_first (fun mv => mv.version == cur.version) gfun l) :=
    pairwise_update_first (fun x _ => ⟨fun y hxy => hxy, fun y hyx => hyx⟩) hWF
  have hfindcur : l.find? (fun mv => mv.version == cur.version) = some cur :=
    find?_version_of_mem hWF hcur
  have hcur1 : gfun cur ∈ update_first (fun mv => mv.version == cur.version) gfun l :=
    image_mem_update_first hfindcur
  have hsym : Symmetric (fun a b : ModelVersion =>
      a.version ≠ b.version ∧ a.created_at ≠ b.created_at) :=
    fun x y hxy => ⟨hxy.1.symm, hxy.2.symm⟩
  have hWne : W ≠ cur := by
    intro heq
    rw [heq] at hold
    exact lt_irrefl _ hold
  have hWv : W.version ≠ cur.version := (List.Pairwise.forall hsym hWF hW hcur hWne).1
  have hW1 : W ∈ update_first (fun mv => mv.version == cur.version) gfun l :=
    mem_update_first_of_not hW (beq_eq_false_iff_ne.mpr hWv)
  have hact1 : lookup_list s1.active_models model_name = some (gfun cur).version := hact
  rcases rollback_model_success now fid s1 model_name
      ("Auto-rollback: " ++ "Error rate exceeds threshold")
      (update_first (fun mv => mv.version == cur.version) gfun l) (gfun cur) W
      hl1 hWF1 hact1 hcur1 hW1 hq hold with
    ⟨w, hqw, hwlt, hwv, hflag, hactive, hres, hretired⟩
  have hredex : update_model_metrics now fid s model_name cur.version response_time
      false confidence cost =
      ((rollback_model now fid s1 model_name none
        ("Auto-rollback: " ++ "Error rate exceeds threshold")).1, true) := by
    unfold update_model_metrics
    rw [hget]
    dsimp only
    rw [hsr, hstatus]
    rfl
  refine ⟨w, hqw, hwlt, ?_, ?_, ?_, ?_⟩
  · rw [hredex]
  · rw [hredex]
    exact hactive
  · rw [hredex]
    exact hres
  · rw [hredex]
    exact hretired

/-- Witness for c1_auto_rollback_restores_previous: feeding one more failed
request to the regressed active v2 of the concrete registry restores v1. -/
theorem c1_auto_rollback_restores_previous_witness :
    (lookup_list example_rollback_state.models "m" =
        some [example_rb_v1, example_rb_v2] ∧
      registry_wf [example_rb_v1, example_rb_v2] ∧
      example_rb_v2 ∈ [example_rb_v1, example_rb_v2] ∧
      lookup_list example_rollback_state.active_models "m" =
        some example_rb_v2.version ∧
      example_rb_v2.status = .active ∧
      example_rb_v2.current_deployment = some example_rb_dep ∧
      example_rb_dep.auto_rollback_enabled = true ∧
      (example_rb_dep.deployment_strategy = .replace ∨
        example_rb_dep.deployment_strategy = .canary) ∧
      100 ≤ example_rb_v2.metrics.total_requests ∧
      example_rb_v2.metrics.failed_requests ≤ example_rb_v2.metrics.total_requests ∧
      example_rb_dep.rollback_threshold_error_rate <
        (example_rb_v2.metrics.failed_requests : ℚ) /
          (example_rb_v2.metrics.total_requests : ℚ) ∧
      example_rb_v1 ∈ [example_rb_v1, example_rb_v2] ∧
      is_stable_target example_rb_v1 = true ∧
      example_rb_v1.created_at < example_rb_v2.created_at) ∧
    (∃ w : ModelVersion, is_stable_target w = true ∧
      w.created_at < example_rb_v2.created_at ∧
      (update_model_metrics 9 "rbw" example_rollback_state "m" example_rb_v2.version 1
        false (9/10) 0).2 = true ∧
      lookup_list (update_model_metrics 9 "rbw" example_rollback_state "m"
        example_rb_v2.version 1 false (9/10) 0).1.active_models "m" = some w.version ∧
      (∃ res, get_model_version (update_model_metrics 9 "rbw" example_rollback_state "m"
          example_rb_v2.version 1 false (9/10) 0).1 "m" w.version = some res ∧
        res.status = .active ∧
        ∃ d, res.current_deployment = some d ∧
          d.status = .active ∧ d.traffic_percentage = 100) ∧
      (get_model_version (update_model_metrics 9 "rbw" example_rollback_state "m"
          example_rb_v2.version 1 false (9/10) 0).1 "m" example_rb_v2.version).map
        (fun v => v.status) = some .retired) := by
  have hwf : registry_wf [example_rb_v1, example_rb_v2] := by decide
  have hmem2 : example_rb_v2 ∈ [example_rb_v1, example_rb_v2] :=
    List.mem_cons_of_mem _ (List.mem_cons_self _ _)
  have hmem1 : example_rb_v1 ∈ [example_rb_v1, example_rb_v2] :=
    List.mem_cons_self _ _
  have herrc : example_rb_dep.rollback_threshold_error_rate <
      (example_rb_v2.metrics.failed_requests : ℚ) /
        (example_rb_v2.metrics.total_requests : ℚ) := by
    rw [show example_rb_v2.metrics.failed_requests = 120 from rfl,
      show example_rb_v2.metrics.total_requests = 150 from rfl,
      show example_rb_dep.rollback_threshold_error_rate = 1/10 from rfl]
    norm_num
  have hqc : is_stable_target example_rb_v1 = true := by
    unfold is_stable_target
    rw [show example_rb_v1.status = ModelStatus.retired from rfl,
      show example_rb_v1.metrics.total_requests = 10 from rfl,
      show example_rb_v1.metrics.error_rate = 0 from rfl]
    simp only [Bool.and_eq_true, Bool.or_eq_true, beq_iff_eq, decide_eq_true_eq]
    refine ⟨⟨Or.inr rfl, by norm_num⟩, by norm_num⟩
  have holdc : example_rb_v1.created_at < example_rb_v2.created_at :=
    of_decide_eq_true rfl
  refine ⟨⟨rfl, hwf, hmem2, rfl, rfl, rfl, rfl, Or.inl rfl, by decide, by decide,
    herrc, hmem1, hqc, holdc⟩, ?_⟩
  exact c1_auto_rollback_restores_previous 9 "rbw" example_rollback_state "m" 1 (9/10) 0
    [example_rb_v1, example_rb_v2] example_rb_v2 example_rb_dep example_rb_v1
    rfl hwf hmem2 rfl rfl rfl rfl (Or.inl rfl) (by decide) (by decide)
    herrc hmem1 hqc holdc

/-- A deployment whose strategy is not CANARY satisfies the canary traffic
bound vacuously. -/
theorem canary_dep_ok_of_not_canary {d : ModelDeployment}
    (h : d.deployment_strategy ≠ .canary) : canary_dep_ok d :=
  fun hc => absurd hc h

/-- Replacing some deployment records of a bound-respecting version by a
bound-respecting deployment keeps every record of the list
bound-respecting. -/
theorem canary_mv_ok_set_current_map {v : ModelVersion}
    {p : ModelDeployment → Bool} {d : ModelDeployment}
    (h : canary_mv_ok v) (hd : canary_dep_ok d) :
    ∀ x ∈ v.deployments.map (fun x => if p x then d else x),
      canary_dep_ok x := by
  intro x hx
  rcases List.mem_map.mp hx with ⟨y, hy, rfl⟩
  split
  · exact hd
  · exact h.1 y hy

/-- Retiring the current deployment keeps a version bound-respecting: only
status and retirement timestamps change. -/
theorem canary_mv_ok_retire_current (now : ℚ) {v : ModelVersion}
    (h : canary_mv_ok v) :
    canary_mv_ok (retire_current_deployment now v) := by
  obtain ⟨hdeps, hcur⟩ := h
  unfold retire_current_deployment
  cases hd : v.current_deployment with
  | none => exact ⟨hdeps, hcur⟩
  | some d =>
    have hdok : canary_dep_ok d := by
      unfold canary_current_ok at hcur
      rw [hd] at hcur
      exact hcur
    constructor
    · intro x hx
      rcases List.mem_map.mp hx with ⟨y, hy, rfl⟩
      split
      · exact hdok
      · exact hdeps y hy
    · exact hdok

/-- One registry update through the nested update_first pattern of
update_model_version_state preserves the per-version canary bound, provided
the update function does. -/
theorem canary_models_inv_update {M : List (String × List ModelVersion)}
    {pq : String × List ModelVersion → Bool} {pv : ModelVersion → Bool}
    {f : ModelVersion → ModelVersion}
    (hf : ∀ mv, canary_mv_ok mv → canary_mv_ok (f mv))
    (hM : ∀ q ∈ M, ∀ mv ∈ q.2, canary_mv_ok mv) :
    ∀ q ∈ update_first pq (fun q => (q.1, update_first pv f q.2)) M,
      ∀ mv ∈ q.2, canary_mv_ok mv := by
  intro q hq mv hmv
  rcases mem_update_first hq with hq | ⟨z, hz, _, rfl⟩
  · exact hM q hq mv hmv
  · rcases mem_update_first hmv with hmv | ⟨w, hw, _, rfl⟩
    · exact hM z hz mv hmv
    · exact hf w (hM z hz w hw)

/-- _retire_active_model preserves the canary traffic invariant: it only
flips statuses and the active index. -/
theorem canary_inv_retire_active (now : ℚ) (s : ManagerState) (mn : String)
    (hs : canary_traffic_inv s) :
    canary_traffic_inv (retire_active_model now s mn) := by
  have hs2 : ∀ q ∈ s.models, ∀ mv ∈ q.2, canary_mv_ok mv := hs
  unfold retire_active_model
  split
  · exact hs
  · split
    · exact hs
    · split
      · exact hs
      · intro q hq mv hmv
        simp only [update_model_version_state] at hq
        refine canary_models_inv_update (fun w hw => ?_) hs2 q hq mv hmv
        exact canary_mv_ok_retire_current now hw

/-- rollback_model preserves the canary traffic invariant: the rollback
deployment uses the REPLACE strategy and every other mutation only retires
statuses or extends changelogs. -/
theorem canary_inv_rollback (now : ℚ) (fid : String) (s : ManagerState)
    (mn : String) (tv? : Option String) (reason : String)
    (hs : canary_traffic_inv s) :
    canary_traffic_inv (rollback_model now fid s mn tv? reason).1 := by
  have hs2 : ∀ q ∈ s.models, ∀ mv ∈ q.2, canary_mv_ok mv := hs
  unfold rollback_model
  split
  · exact hs
  · split
    · exact hs
    · split
      · -- explicit target version supplied
        dsimp only
        split
        · exact hs
        · intro q hq mv hmv
          simp only [update_model_version_state] at hq
          refine canary_models_inv_update (fun w hw => ?_)
            (canary_models_inv_update (fun w hw => ?_)
              (canary_models_inv_update (fun w hw => ?_) hs2)) q hq mv hmv
          · exact hw
          · constructor
            · intro x hx
              rcases List.mem_append.mp hx with hx | hx
              · exact hw.1 x hx
              · rw [List.mem_singleton.mp hx]
                intro hc
                simp at hc
            · intro hc
              simp at hc
          · exact canary_mv_ok_retire_current now hw
      · -- target version found by _find_previous_stable_version
        dsimp only
        split
        · exact hs
        · split
          · exact hs
          · intro q hq mv hmv
            simp only [update_model_version_state] at hq
            refine canary_models_inv_update (fun w hw => ?_)
              (canary_models_inv_update (fun w hw => ?_)
                (canary_models_inv_update (fun w hw => ?_) hs2)) q hq mv hmv
            · exact hw
            · constructor
              · intro x hx
                rcases List.mem_append.mp hx with hx | hx
                · exact hw.1 x hx
                · rw [List.mem_singleton.mp hx]
                  intro hc
                  simp at hc
              · intro hc
                simp at hc
            · exact canary_mv_ok_retire_current now hw

/-- _advance_canary_rollout preserves the canary traffic invariant: the new
traffic is capped by min at the target, rollbacks preserve it, and the
completion branch only activates and retires. -/
theorem canary_inv_advance (now : ℚ) (fid : String) (s : ManagerState)
    (mn ver : String) (hs : canary_traffic_inv s) :
    canary_traffic_inv (advance_canary_rollout now fid s mn ver) := by
  have hs2 : ∀ q ∈ s.models, ∀ mv ∈ q.2, canary_mv_ok mv := hs
  unfold advance_canary_rollout
  split
  · exact hs
  · split
    · exact hs
    · split
      · exact hs
      · dsimp only
        split
        · exact canary_inv_rollback _ _ _ _ _ _ hs
        · split
          · -- completion: activate the advanced deployment, then retire
            refine canary_inv_retire_active _ _ _ ?_
            intro q hq mv hmv
            simp only [update_model_version_state] at hq
            refine canary_models_inv_update (fun w hw => ?_)
              (canary_models_inv_update (fun w hw => ?_) hs2) q hq mv hmv
            · refine ⟨canary_mv_ok_set_current_map hw ?_, ?_⟩
              · exact fun _ => min_le_right _ _
              · exact fun _ => min_le_right _ _
            · refine ⟨canary_mv_ok_set_current_map hw ?_, ?_⟩
              · exact fun _ => min_le_right _ _
              · exact fun _ => min_le_right _ _
          · intro q hq mv hmv
            simp only [update_model_version_state] at hq
            refine canary_models_inv_update (fun w hw => ?_) hs2 q hq mv hmv
            refine ⟨canary_mv_ok_set_current_map hw ?_, ?_⟩
            · exact fun _ => min_le_right _ _
            · exact fun _ => min_le_right _ _

/-- Claim C2 (amended): deploy_model_version with the CANARY strategy starts
the deployment at the configured rollout step percentage without capping it
by the requested target, so the bound traffic_percentage ≤
target_traffic_percentage holds immediately after deployment exactly under
the proviso that the requested target is at least the rollout step; under
that proviso the whole-registry canary traffic bound is preserved, and every
rollout-advancement step preserves the bound unconditionally. -/
theorem c2_canary_traffic_amended (now : ℚ) (fid : String) (s : ManagerState)
    (model_name version deployed_by : String) (traffic : ℚ)
    (s2 : ManagerState) (dep : ModelDeployment)
    (hinv : canary_traffic_inv s)
    (hstep : s.config.canary_rollout_step_percentage ≤ traffic)
    (hok : deploy_model_version now fid s model_name version
      (some .canary) traffic deployed_by = .ok (s2, dep)) :
    (dep.deployment_strategy = .canary ∧
     dep.traffic_percentage = s.config.canary_rollout_step_percentage ∧
     dep.target_traffic_percentage = traffic ∧
     dep.traffic_percentage ≤ dep.target_traffic_percentage ∧
     canary_traffic_inv s2) ∧
    (∀ (now2 : ℚ) (fid2 : String) (s3 : ManagerState) (mn2 v2 : String),
      canary_traffic_inv s3 →
      canary_traffic_inv (advance_canary_rollout now2 fid2 s3 mn2 v2)) := by
  have hinv2 : ∀ q ∈ s.models, ∀ mv ∈ q.2, canary_mv_ok mv := hinv
  refine ⟨?_, fun now2 fid2 s3 mn2 v2 h3 =>
    canary_inv_advance now2 fid2 s3 mn2 v2 h3⟩
  unfold deploy_model_version at hok
  cases hg : get_model_version s model_name version with
  | none =>
    rw [hg] at hok
    simp at hok
  | some mv =>
    rw [hg] at hok
    simp only [Option.getD] at hok
    injection hok with hok2
    injection hok2 with h1 h2
    subst h1
    subst h2
    refine ⟨rfl, rfl, rfl, ?_, ?_⟩
    · exact hstep
    · intro q hq mv2 hmv2
      simp only [update_model_version_state] at hq
      refine canary_models_inv_update (fun w hw => ?_) hinv2 q hq mv2 hmv2
      constructor
      · intro x hx
        rcases List.mem_append.mp hx with hx | hx
        · exact hw.1 x hx
        · rw [List.mem_singleton.mp hx]
          exact fun _ => hstep
      · exact hw.2

/-- Witness for c2_canary_traffic_amended: deploying v1 of the one-version
registry as a canary requesting 50% traffic starts it at the 10% rollout
step below the 50% target, keeping the registry bound intact. -/
theorem c2_canary_traffic_amended_witness :
    canary_traffic_inv example_pending_state ∧
    example_pending_state.config.canary_rollout_step_percentage ≤ 50 ∧
    ∃ s2 dep, deploy_model_version 3 "d9" example_pending_state "m" "v1"
        (some .canary) 50 "u" = .ok (s2, dep) ∧
      ((dep.deployment_strategy = .canary ∧
        dep.traffic_percentage =
          example_pending_state.config.canary_rollout_step_percentage ∧
        dep.target_traffic_percentage = 50 ∧
        dep.traffic_percentage ≤ dep.target_traffic_percentage ∧
        canary_traffic_inv s2) ∧
       (∀ (now2 : ℚ) (fid2 : String) (s3 : ManagerState) (mn2 v2 : String),
         canary_traffic_inv s3 →
         canary_traffic_inv (advance_canary_rollout now2 fid2 s3 mn2 v2))) := by
  have hinv : canary_traffic_inv example_pending_state := by
    intro q hq mv hmv
    rw [List.mem_singleton.mp hq] at hmv
    rw [List.mem_singleton.mp hmv]
    exact ⟨fun d hd => absurd hd (List.not_mem_nil d), True.intro⟩
  have hstep : example_pending_state.config.canary_rollout_step_percentage ≤ (50:ℚ) := by
    rw [show example_pending_state.config.canary_rollout_step_percentage = 10 from rfl]
    norm_num
  exact ⟨hinv, hstep, _, _, rfl,
    c2_canary_traffic_amended 3 "d9" example_pending_state "m" "v1" "u" 50 _ _
      hinv hstep rfl⟩
